import Mathlib

/-!
# Verification of the NovelanLADV9 Lux_WS protocol client

Shallow embedding of `custom_components/novelanladv9/reading_data.py` and
`tools/novelan_ws_dump.py`.  Device frames are modelled at the level of the
decoded `xmltodict` document (the XML codec itself is an external library):
an `XVal` is a Python value as produced by `xmltodict.parse` — a string, a
list, a dict (ordered association list, as Python dicts preserve insertion
order), or `None`.
-/

/-- A decoded Python value as produced by `xmltodict.parse`. -/
inductive XVal where
  | vstr  : String → XVal
  | vlist : List XVal → XVal
  | vdict : List (String × XVal) → XVal
  | vnone : XVal

namespace XVal

/-- Python truthiness of a decoded value (`if x:`). -/
def truthy : XVal → Bool
  | .vstr s => !s.isEmpty
  | .vlist l => !l.isEmpty
  | .vdict d => !d.isEmpty
  | .vnone => false

/-- Python `d[k]` / `d.get(k)` on a dict: first binding of the key. -/
def lookupKey (d : List (String × XVal)) (k : String) : Option XVal :=
  match d with
  | [] => none
  | (k', v) :: rest => if k' = k then some v else lookupKey rest k

/-- Python `d.get(k)`: `None` when the key is absent. -/
def pyGet (d : List (String × XVal)) (k : String) : XVal :=
  (lookupKey d k).getD .vnone

/-- Python `k in d`. -/
def hasKey (d : List (String × XVal)) (k : String) : Bool :=
  (lookupKey d k).isSome

end XVal

open XVal

mutual

/-- Embeds `_normalize_label` (reading_data.py lines 30–47): extract a
readable label from an XML fragment.  Lists yield the first element with a
non-empty normalization; dicts are probed at `#text`, `@name`, `name` in
order (a key that is absent, or present with an empty normalization, is
passed over); `None` yields `""`; a string is returned as is (`str(raw)`). -/
def normalizeLabel : XVal → String
  | .vstr s => s
  | .vnone => ""
  | .vlist items => nlFirst items
  | .vdict d =>
      let t1 := (nlKey "#text" d).getD ""
      if t1 ≠ "" then t1 else
      let t2 := (nlKey "@name" d).getD ""
      if t2 ≠ "" then t2 else
      (nlKey "name" d).getD ""

/-- First non-empty normalization among the list's items (`for item in raw`). -/
def nlFirst : List XVal → String
  | [] => ""
  | x :: rest =>
      let t := normalizeLabel x
      if t = "" then nlFirst rest else t

/-- Normalization of the first binding of key `k`, `none` when absent
(`if key in raw: _normalize_label(raw[key])`). -/
def nlKey (k : String) : List (String × XVal) → Option String
  | [] => none
  | (k', v) :: rest => if k' = k then some (normalizeLabel v) else nlKey k rest

end

namespace XVal

/-- Python `x is None`. -/
def isNone : XVal → Bool
  | .vnone => true
  | _ => false

/-- Python `a or b`. -/
def pyOr (a b : XVal) : XVal := if a.truthy then a else b

/-- Python `str(x)` as used inside f-strings when building command lines.
Strings are returned as is and `None` renders as `"None"`; the `repr` of
lists and dicts is abstracted by a placeholder (no claim evaluates it on a
non-string id). -/
def pyStr : XVal → String
  | .vstr s => s
  | .vnone => "None"
  | .vlist _ => "[...]"
  | .vdict _ => "..."

/-- Iterating a Python string yields its characters, each a 1-string. -/
def strChars (s : String) : List XVal := s.data.map fun c => .vstr (String.singleton c)

end XVal

/-- Python `str.strip()` with no argument: remove leading and trailing
whitespace (the ASCII whitespace characters; further Unicode whitespace is
not modelled — device labels are Latin-1).  Implemented over the character
list so that it evaluates by `rfl`. -/
def pySpace (c : Char) : Bool :=
  c = ' ' || c = '\t' || c = '\n' || c = '\r' || c = '\x0b' || c = '\x0c'

/-- `s.strip()`. -/
def pyStrip (s : String) : String :=
  ⟨((s.data.dropWhile pySpace).reverse.dropWhile pySpace).reverse⟩

/-- Python `d[k] = v` on an (ordered) dict: the first binding of an existing
key is overwritten in place, a new key is appended at the end. -/
def dictInsert {α : Type} : List (String × α) → String → α → List (String × α)
  | [], k, v => [(k, v)]
  | (k', v') :: rest, k, v =>
      if k' = k then (k, v) :: rest else (k', v') :: dictInsert rest k v

/-- First binding of a key in an (ordered) dict, any value type. -/
def dlookup {α : Type} : List (String × α) → String → Option α
  | [], _ => none
  | (k', v) :: rest, k => if k' = k then some v else dlookup rest k

/-- Python `d1.update(d2)`. -/
def dictUpdate {α : Type} (d1 d2 : List (String × α)) : List (String × α) :=
  d2.foldl (fun acc e => dictInsert acc e.1 e.2) d1

/-- The Python exceptions the embedded code can raise.  `controlCommandError`
carries the constructor argument so that the `MissingControlId` raise is
distinguishable from the wrap of a connection-closed error. -/
inductive PyErr where
  | keyError : PyErr
  | typeError : PyErr
  | attributeError : PyErr
  | unboundLocalError : PyErr
  | controlCommandError : String → PyErr
deriving Repr, DecidableEq

/-- A parsed device frame: `xmltodict.parse` always yields a dict at top
level (an unparseable frame is outside this model; the XML codec is an
external library). -/
abbrev Frame := List (String × XVal)

/-- A device as seen by the single-shot fetchers (`fetch_data`,
`fetch_controls`, `fetch_setpoints`): it answers the login with `greeting`
and answers `GET;<id>` with `pages <id>`.  These fetchers' claims do not
involve timeouts or closure, so the device always responds. -/
structure Device where
  greeting : Frame
  pages : String → Frame

open XVal

/-- `d['Navigation']['item']`: `KeyError` when a key is absent,
`TypeError` when `d['Navigation']` is not a dict (subscripting a
non-dict). -/
def navItemsOf (greeting : Frame) : Except PyErr XVal :=
  match lookupKey greeting "Navigation" with
  | none => .error .keyError
  | some (.vdict nav) =>
      match lookupKey nav "item" with
      | none => .error .keyError
      | some v => .ok v
  | some _ => .error .typeError

/-- `if isinstance(x, dict): x = [x]` followed by `for c in x`: a dict is
wrapped, a list is iterated, a string is iterated character-wise, `None` is
not iterable (`TypeError`). -/
def iterWrap : XVal → Except PyErr (List XVal)
  | .vdict d => .ok [.vdict d]
  | .vlist l => .ok l
  | .vstr s => .ok (strChars s)
  | .vnone => .error .typeError

/-- `next((c for c in items if c.get('name') in cands), None)` — the raw
(unnormalized) name comparison used by `fetch_data` and `fetch_setpoints`.
Calling `.get` on a non-dict raises `AttributeError`; `next` stops at the
first match, so elements after it are never inspected. -/
def findByRawName (cands : List String) : List XVal → Except PyErr (Option Frame)
  | [] => .ok none
  | .vdict d :: rest =>
      if (match pyGet d "name" with | .vstr s => cands.contains s | _ => false) then .ok (some d)
      else findByRawName cands rest
  | _ :: _ => .error .attributeError

/-- `frame.get(outerKey, {}).get(innerKey, [])`: both gets are safe;
`AttributeError` only when the outer value is present but not a dict. -/
def getContentItems (frame : Frame) (outerKey innerKey : String) : Except PyErr XVal :=
  match lookupKey frame outerKey with
  | none => .ok (.vlist [])
  | some (.vdict d) => .ok ((lookupKey d innerKey).getD (.vlist []))
  | some _ => .error .attributeError

/-- The leaf loop of `fetch_data` (reading_data.py lines 117–124): each dict
item contributes `res[gname + "_" + name] = value` when `gname` is non-empty
(`name is not None` always holds — `_normalize_label` returns a string);
non-dict items are skipped. -/
def fetchLeaves (gname : String) : List XVal → List (String × XVal) → List (String × XVal)
  | [], res => res
  | .vdict it :: rest, res =>
      let name := pyStrip (normalizeLabel (pyGet it "name"))
      let value := pyGet it "value"
      if gname ≠ "" then fetchLeaves gname rest (dictInsert res (gname ++ "_" ++ name) value)
      else fetchLeaves gname rest res
  | _ :: rest, res => fetchLeaves gname rest res

/-- The group loop of `fetch_data` (lines 110–124): a non-dict group makes
`group.get('name')` raise `AttributeError`; a group whose `item` field is
neither dict nor list is skipped (`continue`). -/
def fetchGroups : List XVal → List (String × XVal) → Except PyErr (List (String × XVal))
  | [], res => .ok res
  | .vdict g :: rest, res =>
      let gname := pyStrip (normalizeLabel (pyGet g "name"))
      match pyGet g "item" with
      | .vdict d => fetchGroups rest (fetchLeaves gname [.vdict d] res)
      | .vlist l => fetchGroups rest (fetchLeaves gname l res)
      | _ => fetchGroups rest res
  | _ :: _, _ => .error .attributeError

/-- Embeds `fetch_data` (reading_data.py lines 85–126).  `now` abstracts
`datetime.now().strftime(...)`. -/
def fetch_data (dev : Device) (now : String) : Except PyErr (List (String × XVal)) := do
  let navItems ← navItemsOf dev.greeting
  let navList ← iterWrap navItems
  let info ← findByRawName ["Informationen", "Information"] navList
  match info with
  | none => .ok []
  | some information =>
      match lookupKey information "@id" with
      | none => .error .keyError
      | some pid => do
          let page := dev.pages (pyStr pid)
          let contentItems ← getContentItems page "Content" "item"
          let groups ← iterWrap contentItems
          let res ← fetchGroups groups []
          .ok (dictInsert res "Time" (.vstr now))

/-- `_match_name` (reading_data.py lines 141–143) lifted to `next(...)`: a
falsy node yields the empty name (never a match); calling `.get` on a truthy
non-dict raises `AttributeError`; names are normalized and trimmed before
the alias comparison. -/
def findMatchName (cands : List String) : List XVal → Except PyErr (Option Frame)
  | [] => .ok none
  | c :: rest =>
      if c.truthy = false then findMatchName cands rest
      else match c with
        | .vdict d =>
            if cands.contains (pyStrip (normalizeLabel (pyGet d "name"))) then .ok (some d)
            else findMatchName cands rest
        | _ => .error .attributeError

/-- `settings_items or []` after the dict-wrap: a dict is wrapped into a
one-element list, `None` and falsy values give `[]`, a non-empty string is
iterated character-wise. -/
def itemsOrEmpty : XVal → List XVal
  | .vdict d => [.vdict d]
  | .vlist l => l
  | .vstr s => if s.isEmpty then [] else strChars s
  | .vnone => []

/-- One normalized option of a control: `value` holds `opt.get('@value')`,
`label` the normalized text. -/
structure COpt where
  value : XVal
  label : String

/-- One entry of the list returned by `fetch_controls` (reading_data.py
lines 185–192). -/
structure Ctrl where
  id : XVal
  name : String
  value : XVal
  raw : XVal
  options : List COpt
  page_id : XVal

/-- The option-normalization loop (lines 178–184): non-dict options are
skipped; the label is `_normalize_label(opt.get('#text') or
opt.get('value')).strip()`. -/
def normOptList : List XVal → List COpt
  | [] => []
  | .vdict o :: rest =>
      ⟨pyGet o "@value", pyStrip (normalizeLabel (pyOr (pyGet o "#text") (pyGet o "value")))⟩
        :: normOptList rest
  | _ :: rest => normOptList rest

/-- Lines 173–177: a dict-valued `option` field is wrapped; a value that is
not a list (after wrapping) leaves the normalized options empty. -/
def normOptions : XVal → List COpt
  | .vdict d => normOptList [.vdict d]
  | .vlist l => normOptList l
  | _ => []

/-- The item loop of `fetch_controls` (lines 167–192): non-dict items and
items whose normalized name is empty are skipped; every other item yields a
descriptor tagged with the page id just opened. -/
def ctrlLoop (pid : XVal) : List XVal → List Ctrl
  | [] => []
  | .vdict it :: rest =>
      let name := pyStrip (normalizeLabel (pyGet it "name"))
      if name = "" then ctrlLoop pid rest
      else ⟨pyGet it "@id", name, pyGet it "value", pyGet it "raw",
            normOptions (pyGet it "option"), pid⟩ :: ctrlLoop pid rest
  | _ :: rest => ctrlLoop pid rest

/-- Embeds `fetch_controls` (reading_data.py lines 129–194).  The second
component is the list of command lines sent over the socket. -/
def fetch_controls (dev : Device) (pin : String) :
    Except PyErr (List Ctrl) × List String :=
  let login := "LOGIN;" ++ pin
  match navItemsOf dev.greeting with
  | .error e => (.error e, [login])
  | .ok navItems =>
  match iterWrap navItems with
  | .error e => (.error e, [login])
  | .ok navList =>
  match findMatchName ["Einstellungen", "Settings"] navList with
  | .error e => (.error e, [login])
  | .ok none => (.ok [], [login])
  | .ok (some settings) =>
  match findMatchName ["Betriebsart"] (itemsOrEmpty (pyGet settings "item")) with
  | .error e => (.error e, [login])
  | .ok none => (.ok [], [login])
  | .ok (some operate) =>
  if hasKey operate "@id" = false then (.ok [], [login])
  else
    let pid := pyGet operate "@id"
    let sent := [login, "GET;" ++ pyStr pid]
    match getContentItems (dev.pages (pyStr pid)) "Content" "item" with
    | .error e => (.error e, sent)
    | .ok ci =>
    match iterWrap ci with
    | .error e => (.error e, sent)
    | .ok items => (.ok (ctrlLoop pid items), sent)

/-- The fixed set of known numeric setpoint labels (reading_data.py lines
206–211).  The source declares this set inside `fetch_setpoints` but never
applies it as a filter. -/
def targets : List String :=
  ["Warmwasser-Soll", "Rückl.-Begr.", "Min. Rückl.Solltemp.", "Max.Warmwassertemp."]

/-- One entry of the mapping returned by `fetch_setpoints` (lines
225–232). -/
structure SPEntry where
  id : XVal
  name : String
  value : XVal
  raw : XVal
  options : XVal
  page_id : XVal

mutual

/-- Embeds `collect_controls.walk` (reading_data.py lines 216–237): a dict
node with a truthy (list-unwrapped) name, an `@id` key and a `value` or
`option` key is recorded under its non-empty normalized label, then every
dict value is walked with the current id as parent; list nodes are walked
element-wise with the unchanged parent. -/
def walk : XVal → XVal → List (String × SPEntry) → List (String × SPEntry)
  | .vdict d, parentId, found =>
      let currentId := pyOr (pyGet d "@id") parentId
      let name1 := match pyGet d "name" with
        | .vlist l => (l.head?).getD .vnone
        | x => x
      let found1 :=
        if name1.truthy && hasKey d "@id" && (hasKey d "value" || hasKey d "option") then
          let label := pyStrip (normalizeLabel name1)
          if label ≠ "" then
            dictInsert found label
              ⟨pyGet d "@id", label, pyGet d "value", pyGet d "raw", pyGet d "option", parentId⟩
          else found
        else found
      walkEntries d currentId found1
  | .vlist l, parentId, found => walkItems l parentId found
  | _, _, found => found

/-- `for value in node.values(): walk(value, current_id)`. -/
def walkEntries : List (String × XVal) → XVal → List (String × SPEntry) → List (String × SPEntry)
  | [], _, found => found
  | (_, v) :: rest, cid, found => walkEntries rest cid (walk v cid found)

/-- `for value in node: walk(value, parent_id)`. -/
def walkItems : List XVal → XVal → List (String × SPEntry) → List (String × SPEntry)
  | [], _, found => found
  | x :: rest, pid, found => walkItems rest pid (walk x pid found)

end

/-- Embeds `fetch_setpoints` (reading_data.py lines 197–266): probe the
Settings branch, then the Information branch, merging with `dict.update`
(so Information wins on name collision).  The branch lookups use the raw
name comparison; `settings['@id']` raises `KeyError` when absent. -/
def fetch_setpoints (dev : Device) (pin : String) :
    Except PyErr (List (String × SPEntry)) := do
  let _ := pin
  let navItems ← navItemsOf dev.greeting
  let navList ← iterWrap navItems
  let settingsOpt ← findByRawName ["Einstellungen", "Settings"] navList
  let results1 ← match settingsOpt with
    | none => pure ([] : List (String × SPEntry))
    | some s =>
        match lookupKey s "@id" with
        | none => .error .keyError
        | some sid => pure (dictUpdate [] (walk (.vdict (dev.pages (pyStr sid))) .vnone []))
  let infoOpt ← findByRawName ["Informationen", "Information"] navList
  match infoOpt with
  | none => pure results1
  | some i =>
      match lookupKey i "@id" with
      | none => .error .keyError
      | some iid => pure (dictUpdate results1 (walk (.vdict (dev.pages (pyStr iid))) .vnone []))

/-! ## The write path (`set_control`)

The socket is modelled by the index at which the device closes the
connection: every socket operation (send or receive) gets a running index
`t`; operations with `closedFrom ≤ t` find the connection closed.  A send
on a closed socket raises `ConnectionClosed`; `_recv_optional` swallows
both closure and timeout and yields `None`.  The `k`-th receive attempt on
the open socket is answered by `recvs k` (`none` models a 5 s timeout).
Frames are pre-parsed (`xmltodict` is external); received frames are
non-empty strings on the wire, hence truthy. -/

/-- Device model for `set_control`. -/
structure WDevice where
  closedFrom : Nat
  recvs : Nat → Option Frame

/-- Running state of one `set_control` session: socket-operation counter,
receive-attempt counter, the `responses` buffer (reading_data.py line 272)
and the command lines sent so far. -/
structure WState where
  t : Nat
  r : Nat
  responses : List Frame
  sent : List String

/-- `websocket.send`: `false` means the send raised `ConnectionClosed`. -/
def wsend (dev : WDevice) (cmd : String) (st : WState) : WState × Bool :=
  if dev.closedFrom ≤ st.t then ({ st with t := st.t + 1 }, false)
  else ({ st with t := st.t + 1, sent := st.sent ++ [cmd] }, true)

/-- `_recv_optional` (lines 274–284): timeout and closure both yield `None`;
a received message is appended to `responses`. -/
def wrecvOptional (dev : WDevice) (st : WState) : WState × Option Frame :=
  if dev.closedFrom ≤ st.t then ({ st with t := st.t + 1, r := st.r + 1 }, none)
  else match dev.recvs st.r with
    | none => ({ st with t := st.t + 1, r := st.r + 1 }, none)
    | some f =>
        ({ st with t := st.t + 1, r := st.r + 1, responses := st.responses ++ [f] }, some f)

/-- The Settings lookup of `set_control` (lines 308–315): unlike
`_match_name` there is no falsy guard, so `.get` on any non-dict item —
including `None` — raises `AttributeError`. -/
def findNormNameStrict (cands : List String) : List XVal → Except PyErr (Option Frame)
  | [] => .ok none
  | .vdict d :: rest =>
      if cands.contains (pyStrip (normalizeLabel (pyGet d "name"))) then .ok (some d)
      else findNormNameStrict cands rest
  | _ :: _ => .error .attributeError

/-- The Betriebsart child lookup (lines 321–330): guarded by
`isinstance(child, dict)`, requires a truthy `@id`. -/
def findBetriebsart : List XVal → Option XVal
  | [] => none
  | .vdict c :: rest =>
      if pyStrip (normalizeLabel (pyGet c "name")) = "Betriebsart" && (pyGet c "@id").truthy
      then some (pyGet c "@id") else findBetriebsart rest
  | _ :: rest => findBetriebsart rest

/-- Lines 316–332: fetch the Settings node's children (wrapping a lone
dict); when they do not form a list the lookup is skipped. -/
def findOperateId (sn : Frame) : Option XVal :=
  match pyGet sn "item" with
  | .vdict d => findBetriebsart [.vdict d]
  | .vlist l => findBetriebsart l
  | _ => none

/-- Lines 297–332: derive the Betriebsart page id from the greeting.
`nav_root.get('Navigation', {}).get('item')` is safe; a non-list `item`
value skips the lookup. -/
def deriveNavPage (g : Frame) : Except PyErr (Option XVal) :=
  match lookupKey g "Navigation" with
  | none => .ok none
  | some (.vdict nav) =>
      match lookupKey nav "item" with
      | some (.vdict d) => derivePageFromItems [.vdict d]
      | some (.vlist l) => derivePageFromItems l
      | _ => .ok none
  | some _ => .error .attributeError
where
  derivePageFromItems (l : List XVal) : Except PyErr (Option XVal) :=
    match findNormNameStrict ["Einstellungen", "Settings"] l with
    | .error e => .error e
    | .ok none => .ok none
    | .ok (some sn) => .ok (findOperateId sn)

/-- Label-to-id search used on the outer page (lines 352–357) and on the
REFRESH payload (lines 372–377): first dict item whose normalized name
equals the caller's `label` (a non-string label never compares equal) and
whose `@id` is truthy. -/
def findIdByLabel (label : XVal) : List XVal → Option XVal
  | [] => none
  | .vdict c :: rest =>
      if (match label with
          | .vstr t => decide (pyStrip (normalizeLabel (pyGet c "name")) = t)
          | _ => false) && (pyGet c "@id").truthy
      then some (pyGet c "@id") else findIdByLabel label rest
  | _ :: rest => findIdByLabel label rest

/-- The `except (ConnectionClosedError, ConnectionClosed)` handler (lines
409–420): return the last buffered response if any; otherwise raise
`ControlCommandError` when `prefixed_id` was already bound (it is then a
non-empty `set_`-prefixed string, hence truthy), and hit an
`UnboundLocalError` when the closure pre-dates the SET stage. -/
def handlerClosed (st : WState) (prefixedBound : Bool) : Except PyErr (Option Frame) :=
  match st.responses.getLast? with
  | some f => .ok (some f)
  | none =>
      if prefixedBound then .error (.controlCommandError "connection closed")
      else .error .unboundLocalError

/-- The SET → REFRESH → SAVE;1 → REFRESH → REFRESH tail of `set_control`
(lines 386–408), entered with the prefixed id bound. -/
def scFinish (dev : WDevice) (st : WState) (prefixedId : String) (value : String) :
    Except PyErr (Option Frame) × List String :=
  let a := wsend dev ("SET;" ++ prefixedId ++ ";" ++ value) st
  if a.2 = false then (handlerClosed a.1 true, a.1.sent) else
  let b := wrecvOptional dev a.1
  let c := wsend dev "REFRESH" b.1
  if c.2 = false then (handlerClosed c.1 true, c.1.sent) else
  let d := wrecvOptional dev c.1
  let e := wsend dev "SAVE;1" d.1
  if e.2 = false then (handlerClosed e.1 true, e.1.sent) else
  let f := wrecvOptional dev e.1
  let g := wsend dev "REFRESH" f.1
  if g.2 = false then (handlerClosed g.1 true, g.1.sent) else
  let h := wrecvOptional dev g.1
  let i := wsend dev "REFRESH" h.1
  if i.2 = false then (handlerClosed i.1 true, i.1.sent) else
  let j := wrecvOptional dev i.1
  (.ok (j.2 <|> h.2 <|> j.1.responses.getLast?), j.1.sent)

/-- Lines 379–384: the missing-id check and the `set_` prefixing of the
active id. -/
def scTarget (dev : WDevice) (st : WState) (activeId : XVal) (value : String) :
    Except PyErr (Option Frame) × List String :=
  if activeId.truthy = false then
    (.error (.controlCommandError "Missing control id for set_control"), st.sent)
  else
    let a := pyStr activeId
    let prefixedId := if a.startsWith "set_" then a else "set_" ++ a
    scFinish dev st prefixedId value

/-- Lines 359–377: the REFRESH fallback lookup, entered when a label was
supplied but no active id is resolved yet. -/
def scFallback (dev : WDevice) (st : WState) (activeId : XVal) (value : String)
    (label : XVal) : Except PyErr (Option Frame) × List String :=
  if label.truthy && activeId.truthy = false then
    let a := wsend dev "REFRESH" st
    if a.2 = false then (handlerClosed a.1 false, a.1.sent) else
    let b := wrecvOptional dev a.1
    match b.2 with
    | none => scTarget dev b.1 activeId value
    | some frame =>
        match getContentItems frame "values" "item" with
        | .error e => (.error e, b.1.sent)
        | .ok ci =>
        match iterWrap ci with
        | .error e => (.error e, b.1.sent)
        | .ok items => scTarget dev b.1 ((findIdByLabel label items).getD activeId) value
  else scTarget dev st activeId value

/-- Lines 343–357: the label search on the opened outer page; a match
overrides the caller-supplied id. -/
def scOuterStage (dev : WDevice) (st : WState) (activeId : XVal) (value : String)
    (label : XVal) (outer : Option Frame) : Except PyErr (Option Frame) × List String :=
  match outer with
  | some o =>
      if label.truthy then
        match getContentItems o "Content" "item" with
        | .error e => (.error e, st.sent)
        | .ok ci =>
        match iterWrap ci with
        | .error e => (.error e, st.sent)
        | .ok cands =>
            scFallback dev st ((findIdByLabel label cands).getD activeId) value label
      else scFallback dev st activeId value label
  | none => scFallback dev st activeId value label

/-- Embeds `set_control` (reading_data.py lines 268–428).  Returns the
Python result (a frame, `None`, or a raised exception) together with the
command lines sent.  The second `except` clause (Timeout /
WebSocketException / OSError, lines 421–428) is unreachable in this model:
reads are wrapped by `_recv_optional` and sends only raise
`ConnectionClosed`. -/
def set_control (dev : WDevice) (pin : String) (control_id : XVal) (value : String)
    (page_id : XVal) (label : XVal) : Except PyErr (Option Frame) × List String :=
  let st0 : WState := ⟨0, 0, [], []⟩
  let a := wsend dev ("LOGIN;" ++ pin) st0
  if a.2 = false then (handlerClosed a.1 false, a.1.sent) else
  let b := wrecvOptional dev a.1
  match (match b.2 with
         | none => Except.ok none
         | some g => deriveNavPage g) with
  | .error e => (.error e, b.1.sent)
  | .ok der =>
      let navPage := der.getD page_id
      if navPage.truthy then
        let c := wsend dev ("GET;" ++ pyStr navPage) b.1
        if c.2 = false then (handlerClosed c.1 false, c.1.sent) else
        let d := wrecvOptional dev c.1
        scOuterStage dev d.1 control_id value label d.2
      else
        scOuterStage dev b.1 control_id value label none

/-! ## The bulk tree walk (`tools/novelan_ws_dump.py`)

The device is modelled by its (constant) greeting and a deterministic
response map: `respond id = none` models a receive timeout or a connection
error on `GET;id` (both take the same retry path), `some (raw, frame)` a
raw payload together with its parse.  Reconnection (`_open_connection`
after a failure) is transparent: the model device answers fresh sessions
identically, and reopening always succeeds. -/

/-- Python `==` on decoded values.  (Python compares dicts order-insensitively
and rejects unhashable set members; node ids are strings in practice, where
this structural equality coincides.) -/
def xeq : XVal → XVal → Bool
  | .vstr a, .vstr b => a == b
  | .vnone, .vnone => true
  | .vlist a, .vlist b => xeqL a b
  | .vdict a, .vdict b => xeqD a b
  | _, _ => false
where
  xeqL : List XVal → List XVal → Bool
    | [], [] => true
    | a :: ra, b :: rb => xeq a b && xeqL ra rb
    | _, _ => false
  xeqD : List (String × XVal) → List (String × XVal) → Bool
    | [], [] => true
    | (k1, v1) :: r1, (k2, v2) :: r2 => k1 == k2 && xeq v1 v2 && xeqD r1 r2
    | _, _ => false

/-- Embeds `_simplify_options` (novelan_ws_dump.py lines 134–150). -/
def simplifyOptList : List XVal → List String
  | [] => []
  | .vdict o :: rest =>
      let value := pyOr (pyGet o "@value") (pyGet o "value")
      if value.isNone then simplifyOptList rest else pyStr value :: simplifyOptList rest
  | x :: rest => pyStr x :: simplifyOptList rest

/-- `_simplify_options` top level: list, dict, `None`, scalar. -/
def simplifyOptions : XVal → Option (List String)
  | .vlist l => some (simplifyOptList l)
  | .vdict d =>
      let value := pyOr (pyGet d "@value") (pyGet d "value")
      if value.isNone then none else some [pyStr value]
  | .vnone => none
  | x => some [pyStr x]

/-- One entry produced by `_extract_entries`: the `value`/`options` fields
are present only when the source field `is not None`. -/
structure RptEntry where
  name : XVal
  value : Option XVal
  options : Option (Option (List String))

mutual

/-- Embeds `_extract_entries` (novelan_ws_dump.py lines 113–131). -/
def extractEntries : XVal → List RptEntry
  | .vdict d =>
      let name := pyGet d "name"
      let value := pyGet d "value"
      let options := pyGet d "option"
      (if name.truthy && (!value.isNone || !options.isNone) then
        [⟨name, if value.isNone then none else some value,
          if options.isNone then none else some (simplifyOptions options)⟩]
       else []) ++ extractEntriesD d
  | .vlist l => extractEntriesL l
  | _ => []

/-- `for child in node.values()`. -/
def extractEntriesD : List (String × XVal) → List RptEntry
  | [] => []
  | (_, v) :: rest => extractEntries v ++ extractEntriesD rest

/-- `for child in node` (list case). -/
def extractEntriesL : List XVal → List RptEntry
  | [] => []
  | x :: rest => extractEntries x ++ extractEntriesL rest

end

mutual

/-- Embeds `_enumerate_children` (novelan_ws_dump.py lines 98–110): yields
`(name, id)` for every dict node whose (list-unwrapped) name and `@id` are
both truthy, in document order. -/
def enumChildren : XVal → List (XVal × XVal)
  | .vdict d =>
      let name := match pyGet d "name" with
        | .vlist l => (l.head?).getD .vnone
        | x => x
      let nid := pyGet d "@id"
      (if name.truthy && nid.truthy then [(name, nid)] else []) ++ enumChildrenD d
  | .vlist l => enumChildrenL l
  | _ => []

/-- `for value in node.values()`. -/
def enumChildrenD : List (String × XVal) → List (XVal × XVal)
  | [] => []
  | (_, v) :: rest => enumChildren v ++ enumChildrenD rest

/-- `for value in node` (list case). -/
def enumChildrenL : List XVal → List (XVal × XVal)
  | [] => []
  | x :: rest => enumChildren x ++ enumChildrenL rest

end

/-- `" / ".join(path)`: `TypeError` on a non-string element. -/
def joinPath : List XVal → Except PyErr String
  | [] => .ok ""
  | [.vstr s] => .ok s
  | .vstr s :: rest =>
      match joinPath rest with
      | .ok t => .ok (s ++ " / " ++ t)
      | .error e => .error e
  | _ :: _ => .error .typeError

/-- `QueueNode` (novelan_ws_dump.py lines 35–38); child path elements keep
the raw name object, only the seed path is `str()`-ed. -/
structure QueueNode where
  path : List XVal
  node_id : XVal

/-- One element of the final `report` list (lines 238–248). -/
structure RptNode where
  path : String
  id : XVal
  entry_count : Nat
  entries : List RptEntry
  raw_xml : Option String
  raw_length : Option Nat

/-- One element of the `skipped` list (lines 197–201). -/
structure SkipEntry where
  path : String
  id : XVal
  attempts : Nat

/-- The CLI arguments that steer the traversal (defaults: retries 3,
max-nodes 25, max-failures 200). -/
structure DumpArgs where
  retries : Nat
  max_nodes : Nat
  max_failures : Nat
  overview_only : Bool
  include_raw : Bool

/-- The dump-tool device model. -/
structure DumpDevice where
  greeting : Frame
  respond : String → Option (String × Frame)

/-- `defaultdict(int)` read. -/
def retriesGet : List (XVal × Nat) → XVal → Nat
  | [], _ => 0
  | (k', n) :: rest, k => if xeq k' k then n else retriesGet rest k

/-- `retries[k] = n`. -/
def retriesSet : List (XVal × Nat) → XVal → Nat → List (XVal × Nat)
  | [], k, n => [(k, n)]
  | (k', n') :: rest, k, n =>
      if xeq k' k then (k, n) :: rest else (k', n') :: retriesSet rest k n

/-- `x in seen`. -/
def seenMem (seen : List XVal) (k : XVal) : Bool := seen.any fun x => xeq x k

/-- The mutable traversal state of `collect_report`. -/
structure CrState where
  queue : List QueueNode
  seen : List XVal
  retries : List (XVal × Nat)
  report : List RptNode
  skipped : List SkipEntry
  skippedCount : Nat

/-- One-iteration-per-unit-of-fuel embedding of the `while` loop of
`collect_report` (novelan_ws_dump.py lines 190–259); `none` means the fuel
ran out before the loop terminated. -/
def crLoop (dev : DumpDevice) (args : DumpArgs) : Nat → CrState → Option (Except PyErr CrState)
  | 0, _ => none
  | fuel + 1, st =>
      match st.queue with
      | [] => some (.ok st)
      | node :: rest =>
          if args.max_nodes ≤ st.report.length then some (.ok st)
          else if seenMem st.seen node.node_id then
            crLoop dev args fuel { st with queue := rest }
          else if args.retries ≤ retriesGet st.retries node.node_id then
            match joinPath node.path with
            | .error e => some (.error e)
            | .ok p =>
                let st' := { st with
                  queue := rest,
                  skipped := st.skipped ++ [⟨p, node.node_id, retriesGet st.retries node.node_id⟩],
                  skippedCount := st.skippedCount + 1 }
                if args.max_failures ≠ 0 ∧ args.max_failures ≤ st'.skippedCount then
                  some (.ok st')
                else if args.overview_only then some (.ok st')
                else crLoop dev args fuel st'
          else
            match dev.respond (pyStr node.node_id) with
            | none =>
                crLoop dev args fuel { st with
                  queue := node :: rest,
                  retries := retriesSet st.retries node.node_id
                    (retriesGet st.retries node.node_id + 1) }
            | some (raw, frame) =>
                match joinPath node.path with
                | .error e => some (.error e)
                | .ok p =>
                    let entries := extractEntries (.vdict frame)
                    let entryList := if args.overview_only then entries else entries.take 20
                    let re : RptNode := ⟨p, node.node_id, entries.length, entryList,
                      if args.include_raw then some raw else none,
                      if args.include_raw then none else some raw.length⟩
                    let seen1 := st.seen ++ [node.node_id]
                    let newKids := (enumChildren (.vdict frame)).filterMap fun nc =>
                      if seenMem seen1 nc.2 then none
                      else some (⟨node.path ++ [nc.1], nc.2⟩ : QueueNode)
                    let st' := { st with
                      queue := rest ++ newKids, seen := seen1, report := st.report ++ [re] }
                    if args.overview_only then some (.ok st')
                    else crLoop dev args fuel st'

/-- The queue seeding of `collect_report` (lines 177–183): falsy items are
filtered out, a truthy non-dict raises `AttributeError`, a falsy name
becomes `"<unnamed>"` (also after list unwrap), and only items with a
truthy `@id` are queued, with a `str()`-ed one-element path. -/
def seedQueue : List XVal → Except PyErr (List QueueNode)
  | [] => .ok []
  | x :: rest =>
      if x.truthy = false then seedQueue rest
      else match x with
        | .vdict d =>
            let name0 := pyOr (pyGet d "name") (.vstr "<unnamed>")
            let name := match name0 with
              | .vlist l => (l.head?).getD (.vstr "<unnamed>")
              | y => y
            let nid := pyGet d "@id"
            (match seedQueue rest with
             | .error e => .error e
             | .ok q =>
                .ok ((if nid.truthy then [(⟨[XVal.vstr (pyStr name)], nid⟩ : QueueNode)] else []) ++ q))
        | _ => .error .attributeError

/-- Embeds `collect_report` (novelan_ws_dump.py lines 168–264) with a fuel
bound on the loop. -/
def collect_report (dev : DumpDevice) (args : DumpArgs) (fuel : Nat) :
    Option (Except PyErr CrState) :=
  match (match lookupKey dev.greeting "Navigation" with
         | none => Except.ok XVal.vnone
         | some (.vdict nav) => Except.ok (pyGet nav "item")
         | some _ => Except.error PyErr.attributeError) with
  | .error e => some (.error e)
  | .ok navItems =>
      let items := match navItems with | .vlist l => l | x => [x]
      match seedQueue items with
      | .error e => some (.error e)
      | .ok q => crLoop dev args fuel ⟨q, [], [], [], [], 0⟩

/-! ## Step lemmas for the socket model -/

theorem wsend_open (dev : WDevice) (cmd : String) (st : WState) (h : st.t < dev.closedFrom) :
    wsend dev cmd st = ({ st with t := st.t + 1, sent := st.sent ++ [cmd] }, true) := by
  simp [wsend, Nat.not_le.mpr h]

theorem wsend_closed (dev : WDevice) (cmd : String) (st : WState) (h : dev.closedFrom ≤ st.t) :
    wsend dev cmd st = ({ st with t := st.t + 1 }, false) := by
  simp [wsend, h]

theorem wrecv_closed (dev : WDevice) (st : WState) (h : dev.closedFrom ≤ st.t) :
    wrecvOptional dev st = ({ st with t := st.t + 1, r := st.r + 1 }, none) := by
  simp [wrecvOptional, h]

theorem wrecv_timeout (dev : WDevice) (st : WState) (h : st.t < dev.closedFrom)
    (h2 : dev.recvs st.r = none) :
    wrecvOptional dev st = ({ st with t := st.t + 1, r := st.r + 1 }, none) := by
  simp [wrecvOptional, Nat.not_le.mpr h, h2]

theorem wrecv_frame (dev : WDevice) (st : WState) (f : Frame) (h : st.t < dev.closedFrom)
    (h2 : dev.recvs st.r = some f) :
    wrecvOptional dev st =
      ({ st with t := st.t + 1, r := st.r + 1, responses := st.responses ++ [f] }, some f) := by
  simp [wrecvOptional, Nat.not_le.mpr h, h2]

theorem truthy_vnone : XVal.truthy .vnone = false := rfl

/-! ## Scenario devices for the write-path claims -/

/-- A greeting frame without a `Navigation` key: parsed fine, derives no
page id. -/
def gX : Frame := [("X", XVal.vstr "1")]

/-- Device that answers the login greeting and then closes: operations 0
(LOGIN send) and 1 (greeting receive) succeed, everything later finds the
socket closed — so SET is never sent. -/
def devCloseEarly : WDevice := ⟨2, fun k => if k = 0 then some gX else none⟩

/-- Device that never answers and closes after two operations: the greeting
read times out, and the socket is closed from the SET send on. -/
def devSilent2 : WDevice := ⟨2, fun _ => none⟩

/-- Device that never answers and closes after four operations: LOGIN send,
greeting timeout and the SET send go through, the post-SET REFRESH send
finds the socket closed. -/
def devSilent4 : WDevice := ⟨4, fun _ => none⟩

/-- Device that answers the greeting, accepts SET, then closes (no further
responses). -/
def devGreet4 : WDevice := ⟨4, fun k => if k = 0 then some gX else none⟩

/-- C1 counterexample: a device that closes the socket before SET is ever
sent (the sent log is exactly the login — no SET went out), after having
delivered a greeting.  `set_control` returns the buffered greeting as a
successful result instead of raising `ControlRejected`/`ControlCommandError`
(reading_data.py lines 416–417: buffered responses win over the raise). -/
theorem set_control_closed_before_set_returns_buffered_response :
    set_control devCloseEarly "999999" (.vstr "1") "2" (.vstr "p") .vnone =
    (.ok (some gX), ["LOGIN;999999"]) := rfl

/-- C1 (amended): when the connection closes before SET is sent, the call
raises `ControlCommandError` only in the unbuffered case — no response was
ever received and the SET stage had been reached (the prefixed id bound):
here the device times out on the greeting and is closed from operation 2
on, so the SET send itself hits the closed socket with an empty response
buffer. -/
theorem set_control_closed_before_set_raises_when_unbuffered
    (dev : WDevice) (pin v : String) (cid : XVal) (h2 : dev.closedFrom = 2)
    (hr : dev.recvs 0 = none) (hc : cid.truthy = true) :
    set_control dev pin cid v .vnone .vnone =
    (.error (.controlCommandError "connection closed"), ["LOGIN;" ++ pin]) := by
  simp [set_control, h2, hr, hc, wsend_open, wsend_closed, wrecv_timeout, wrecv_frame,
    wrecv_closed, scOuterStage, scFallback, scTarget, scFinish, handlerClosed, truthy_vnone]

/-- Witness for the amended C1 theorem at a concrete device and arguments. -/
theorem set_control_closed_before_set_raises_when_unbuffered_witness :
    devSilent2.closedFrom = 2 ∧ devSilent2.recvs 0 = none ∧
    (XVal.vstr "7").truthy = true ∧
    set_control devSilent2 "999999" (.vstr "7") "2" .vnone .vnone =
    (.error (.controlCommandError "connection closed"), ["LOGIN;999999"]) :=
  ⟨rfl, rfl, rfl,
    set_control_closed_before_set_raises_when_unbuffered devSilent2 "999999" "2" (.vstr "7")
      rfl rfl rfl⟩

/-- C2 counterexample: the connection closes after SET was already sent
(the sent log shows `SET;set_1;5` went out), no response was ever buffered
(the device stayed silent), and `set_control` propagates a
`ControlCommandError` instead of returning a non-fatal result
(reading_data.py lines 418–419: with `responses` empty and `prefixed_id`
bound, the closure is re-raised). -/
theorem set_control_closed_after_set_raises_when_unbuffered :
    set_control devSilent4 "9" (.vstr "1") "5" .vnone .vnone =
    (.error (.controlCommandError "connection closed"), ["LOGIN;9", "SET;set_1;5"]) := rfl

/-- C2 (amended): when the connection closes after SET was sent and at
least one response was buffered (here the greeting), the call returns the
best available buffered response and does not propagate an error. -/
theorem set_control_closed_after_set_returns_buffered
    (dev : WDevice) (pin v : String) (cid : XVal) (g : Frame) (h4 : dev.closedFrom = 4)
    (hr0 : dev.recvs 0 = some g) (hr1 : dev.recvs 1 = none)
    (hder : deriveNavPage g = .ok none) (hc : cid.truthy = true) :
    set_control dev pin cid v .vnone .vnone =
    (.ok (some g),
     ["LOGIN;" ++ pin,
      "SET;" ++ (if (XVal.pyStr cid).startsWith "set_" then XVal.pyStr cid
                 else "set_" ++ XVal.pyStr cid) ++ ";" ++ v]) := by
  simp [set_control, h4, hr0, hr1, hder, hc, wsend_open, wsend_closed, wrecv_timeout,
    wrecv_frame, wrecv_closed, scOuterStage, scFallback, scTarget, scFinish, handlerClosed,
    truthy_vnone]

/-- Witness for the amended C2 theorem at a concrete device and arguments. -/
theorem set_control_closed_after_set_returns_buffered_witness :
    devGreet4.closedFrom = 4 ∧ devGreet4.recvs 0 = some gX ∧ devGreet4.recvs 1 = none ∧
    deriveNavPage gX = .ok none ∧ (XVal.vstr "1").truthy = true ∧
    set_control devGreet4 "999999" (.vstr "1") "5" .vnone .vnone =
    (.ok (some gX), ["LOGIN;999999", "SET;set_1;5"]) :=
  ⟨rfl, rfl, rfl, rfl, rfl,
    set_control_closed_after_set_returns_buffered devGreet4 "999999" "5" (.vstr "1") gX
      rfl rfl rfl rfl rfl⟩

/-! ## Lemmas about the id-resolution stages -/

theorem scOuterStage_no_label (dev : WDevice) (st : WState) (cid : XVal) (v : String)
    (outer : Option Frame) :
    scOuterStage dev st cid v .vnone outer = scTarget dev st cid v := by
  cases outer <;> simp [scOuterStage, scFallback, truthy_vnone]

theorem scTarget_falsy (dev : WDevice) (st : WState) (cid : XVal) (v : String)
    (h : cid.truthy = false) :
    scTarget dev st cid v =
      (.error (.controlCommandError "Missing control id for set_control"), st.sent) := by
  simp [scTarget, h]

theorem wrecv_sent (dev : WDevice) (st : WState) : (wrecvOptional dev st).1.sent = st.sent := by
  unfold wrecvOptional
  by_cases h : dev.closedFrom ≤ st.t
  · simp [h]
  · simp [h]
    cases dev.recvs st.r <;> simp

theorem findBetriebsart_truthy (l : List XVal) (x : XVal) (h : findBetriebsart l = some x) :
    x.truthy = true := by
  induction l with
  | nil => simp [findBetriebsart] at h
  | cons c rest ih =>
      cases c with
      | vdict d =>
          by_cases hc : (pyStrip (normalizeLabel (XVal.pyGet d "name")) = "Betriebsart"
              && (XVal.pyGet d "@id").truthy) = true
          · rw [findBetriebsart, if_pos hc] at h
            cases h
            exact (Bool.and_eq_true _ _).mp hc |>.2
          · rw [findBetriebsart, if_neg hc] at h
            exact ih h
      | vstr s => exact ih h
      | vlist l2 => exact ih h
      | vnone => exact ih h

theorem findOperateId_truthy (sn : Frame) (x : XVal) (h : findOperateId sn = some x) :
    x.truthy = true := by
  unfold findOperateId at h
  split at h
  · exact findBetriebsart_truthy _ _ h
  · exact findBetriebsart_truthy _ _ h
  · cases h

theorem derivePageFromItems_truthy (l : List XVal) (x : XVal)
    (h : deriveNavPage.derivePageFromItems l = .ok (some x)) : x.truthy = true := by
  unfold deriveNavPage.derivePageFromItems at h
  split at h
  · cases h
  · simp at h
  next sn heq =>
    simp only [Except.ok.injEq] at h
    exact findOperateId_truthy sn x h

theorem deriveNavPage_truthy (g : Frame) (x : XVal) (h : deriveNavPage g = .ok (some x)) :
    x.truthy = true := by
  unfold deriveNavPage at h
  split at h
  · simp at h
  · split at h
    · exact derivePageFromItems_truthy _ _ h
    · exact derivePageFromItems_truthy _ _ h
    · simp at h
  · cases h

/-- Device that keeps the connection open through the whole write sequence
but never answers any read. -/
def devOpen : WDevice := ⟨100, fun _ => none⟩

/-- C6: when no active control id resolves — the caller supplied a falsy
`control_id` and no label (so neither the page search nor the REFRESH
fallback can derive one) — `set_control` raises the
`Missing control id for set_control` `ControlCommandError` before any SET
command is sent: every command line that went out is the login or a page
GET.  The device stays connected (`4 ≤ closedFrom`) and any received
greeting parses without error. -/
theorem set_control_missing_id (dev : WDevice) (pin v : String) (cid pageId : XVal)
    (hclosed : 4 ≤ dev.closedFrom)
    (hcid : cid.truthy = false)
    (hg : ∀ g, dev.recvs 0 = some g → ∃ o, deriveNavPage g = .ok o) :
    (set_control dev pin cid v pageId .vnone).1 =
      .error (.controlCommandError "Missing control id for set_control") ∧
    ((set_control dev pin cid v pageId .vnone).2 = ["LOGIN;" ++ pin] ∨
      ∃ x, (set_control dev pin cid v pageId .vnone).2 = ["LOGIN;" ++ pin, "GET;" ++ x]) := by
  have h0 : (0:Nat) < dev.closedFrom := by omega
  have h1 : (1:Nat) < dev.closedFrom := by omega
  have h2 : (2:Nat) < dev.closedFrom := by omega
  have h3 : (3:Nat) < dev.closedFrom := by omega
  cases hrecv : dev.recvs 0 with
  | none =>
      by_cases hp : pageId.truthy
      · refine ⟨?_, Or.inr ⟨XVal.pyStr pageId, ?_⟩⟩ <;>
          simp [set_control, hrecv, hcid, hp, wsend_open, wrecv_timeout, h0, h1, h2, h3,
            scOuterStage_no_label, scTarget_falsy, wrecv_sent]
      · refine ⟨?_, Or.inl ?_⟩ <;>
          simp [set_control, hrecv, hcid, hp, wsend_open, wrecv_timeout, h0, h1, h2, h3,
            scOuterStage_no_label, scTarget_falsy]
  | some g =>
      obtain ⟨o, ho⟩ := hg g hrecv
      cases o with
      | none =>
          by_cases hp : pageId.truthy
          · refine ⟨?_, Or.inr ⟨XVal.pyStr pageId, ?_⟩⟩ <;>
              simp [set_control, hrecv, ho, hcid, hp, wsend_open, wrecv_frame, wrecv_timeout,
                h0, h1, h2, h3, scOuterStage_no_label, scTarget_falsy, wrecv_sent]
          · refine ⟨?_, Or.inl ?_⟩ <;>
              simp [set_control, hrecv, ho, hcid, hp, wsend_open, wrecv_frame, h0, h1,
                scOuterStage_no_label, scTarget_falsy]
      | some pid =>
          have hpt := deriveNavPage_truthy g pid ho
          refine ⟨?_, Or.inr ⟨XVal.pyStr pid, ?_⟩⟩ <;>
            simp [set_control, hrecv, ho, hcid, hpt, wsend_open, wrecv_frame, wrecv_timeout,
              h0, h1, h2, h3, scOuterStage_no_label, scTarget_falsy, wrecv_sent]

/-- Witness for C6 at a concrete device and arguments. -/
theorem set_control_missing_id_witness :
    4 ≤ devOpen.closedFrom ∧ XVal.truthy .vnone = false ∧
    ((set_control devOpen "999999" .vnone "5" .vnone .vnone).1 =
      .error (.controlCommandError "Missing control id for set_control") ∧
     ((set_control devOpen "999999" .vnone "5" .vnone .vnone).2 = ["LOGIN;999999"] ∨
       ∃ x, (set_control devOpen "999999" .vnone "5" .vnone .vnone).2 =
         ["LOGIN;999999", "GET;" ++ x])) :=
  ⟨by decide, rfl,
    set_control_missing_id devOpen "999999" "5" .vnone .vnone (by decide) rfl
      (fun g h => Option.noConfusion h)⟩

/-! ## Control discovery (`fetch_controls`) -/

/-- The item loop of `fetch_controls` as a comprehension over the page's
items: non-dict items and empty-named items are dropped, everything else
becomes a descriptor tagged with the opened page id. -/
theorem ctrlLoop_eq_filterMap (pid : XVal) (items : List XVal) :
    ctrlLoop pid items = items.filterMap (fun it =>
      match it with
      | .vdict d =>
          if pyStrip (normalizeLabel (pyGet d "name")) = "" then none
          else some (⟨pyGet d "@id", pyStrip (normalizeLabel (pyGet d "name")), pyGet d "value",
                      pyGet d "raw", normOptions (pyGet d "option"), pid⟩ : Ctrl)
      | _ => none) := by
  induction items with
  | nil => rfl
  | cons it rest ih =>
      cases it with
      | vdict d =>
          by_cases hn : pyStrip (normalizeLabel (pyGet d "name")) = ""
          · simp [ctrlLoop, hn, ih]
          · simp [ctrlLoop, hn, ih]
      | vstr s => simp [ctrlLoop, ih]
      | vlist l => simp [ctrlLoop, ih]
      | vnone => simp [ctrlLoop, ih]

/-- A Settings branch whose Betriebsart page is `0x5`. -/
def heizSettingsNode : XVal :=
  .vdict [("name", .vstr "Einstellungen"), ("@id", .vstr "0x2"),
          ("item", .vdict [("name", .vstr "Betriebsart"), ("@id", .vstr "0x5")])]

/-- The Heizkreis item of the spec's control-discovery example. -/
def heizItem : Frame :=
  [("name", XVal.vstr "Heizkreis"), ("@id", XVal.vstr "0x1"),
   ("value", XVal.vstr "Automatik"),
   ("option", XVal.vlist
     [.vdict [("@value", .vstr "0"), ("#text", .vstr "Automatik")],
      .vdict [("@value", .vstr "1"), ("#text", .vstr "Aus")]])]

/-- Device exposing Settings→Betriebsart with the single Heizkreis item. -/
def devHeiz : Device :=
  { greeting := [("Navigation", .vdict [("item", .vlist [heizSettingsNode])])],
    pages := fun k => if k = "0x5" then [("Content", .vdict [("item", .vdict heizItem)])] else [] }

/-- Device whose Betriebsart page holds one named item with NO options. -/
def devNoOpt : Device :=
  { greeting := [("Navigation", .vdict [("item", .vlist [heizSettingsNode])])],
    pages := fun k =>
      if k = "0x5" then
        [("Content", .vdict [("item", .vdict [("name", XVal.vstr "X"), ("value", XVal.vstr "1")])])]
      else [] }

/-- Device whose navigation has no Settings/Einstellungen branch at all. -/
def devNoSettings : Device :=
  { greeting := [("Navigation",
      .vdict [("item", .vdict [("name", .vstr "Informationen"), ("@id", .vstr "0x1")])])],
    pages := fun _ => [] }

/-- C3 counterexample: the Betriebsart page holds exactly one named item
that bears no options, yet `fetch_controls` still returns a descriptor for
it (with `options := []`) — the returned list is not "exactly the
option-bearing items" (which would be empty here): the loop at
reading_data.py lines 167–192 never filters on options. -/
theorem fetch_controls_includes_optionless_items :
    fetch_controls devNoOpt "9" =
      (.ok [{ id := .vnone, name := "X", value := .vstr "1", raw := .vnone,
              options := [], page_id := .vstr "0x5" }],
       ["LOGIN;9", "GET;0x5"]) := rfl

/-- C3 (amended): for every navigation frame with a Settings/Einstellungen
branch holding a Betriebsart page with an `@id`, `fetch_controls` issues
exactly one GET — for that page's id — and returns a descriptor for every
named item of the page (option-bearing or not): options normalized to
value/label pairs, current value from the item's `value` field, and
`page_id` equal to the id of the page just opened. -/
theorem fetch_controls_named_page_items (dev : Device) (pin : String) (navItems : XVal)
    (navList : List XVal) (settings operate : Frame) (ci : XVal) (items : List XVal)
    (h1 : navItemsOf dev.greeting = .ok navItems)
    (h2 : iterWrap navItems = .ok navList)
    (h3 : findMatchName ["Einstellungen", "Settings"] navList = .ok (some settings))
    (h4 : findMatchName ["Betriebsart"] (itemsOrEmpty (pyGet settings "item")) = .ok (some operate))
    (h5 : hasKey operate "@id" = true)
    (h6 : getContentItems (dev.pages (pyStr (pyGet operate "@id"))) "Content" "item" = .ok ci)
    (h7 : iterWrap ci = .ok items) :
    fetch_controls dev pin =
      (.ok (items.filterMap (fun it =>
        match it with
        | .vdict d =>
            if pyStrip (normalizeLabel (pyGet d "name")) = "" then none
            else some (⟨pyGet d "@id", pyStrip (normalizeLabel (pyGet d "name")), pyGet d "value",
                        pyGet d "raw", normOptions (pyGet d "option"),
                        pyGet operate "@id"⟩ : Ctrl)
        | _ => none)),
       ["LOGIN;" ++ pin, "GET;" ++ pyStr (pyGet operate "@id")]) := by
  simp [fetch_controls, h1, h2, h3, h4, h5, h6, h7, ctrlLoop_eq_filterMap]

/-- Witness for the amended C3 theorem: the spec's Heizkreis example yields
one descriptor with current value `"Automatik"`, two options, and the
`page_id` of the opened Betriebsart page. -/
theorem fetch_controls_named_page_items_witness :
    fetch_controls devHeiz "999999" =
      (.ok [{ id := .vstr "0x1", name := "Heizkreis", value := .vstr "Automatik",
              raw := .vnone,
              options := [⟨.vstr "0", "Automatik"⟩, ⟨.vstr "1", "Aus"⟩],
              page_id := .vstr "0x5" }],
       ["LOGIN;999999", "GET;0x5"]) :=
  fetch_controls_named_page_items devHeiz "999999" (.vlist [heizSettingsNode])
    [heizSettingsNode]
    [("name", .vstr "Einstellungen"), ("@id", .vstr "0x2"),
     ("item", .vdict [("name", .vstr "Betriebsart"), ("@id", .vstr "0x5")])]
    [("name", .vstr "Betriebsart"), ("@id", .vstr "0x5")]
    (.vdict heizItem) [.vdict heizItem] rfl rfl rfl rfl rfl rfl rfl

/-- C9: when the navigation frame has no Settings/Einstellungen branch, or
its Settings branch has no Betriebsart child carrying an `@id`,
`fetch_controls` returns the empty list as a successful result, raises
nothing, and sends no GET (the sent log is exactly the login). -/
theorem fetch_controls_empty_without_betriebsart (dev : Device) (pin : String)
    (navItems : XVal) (navList : List XVal)
    (h1 : navItemsOf dev.greeting = .ok navItems)
    (h2 : iterWrap navItems = .ok navList)
    (hs : findMatchName ["Einstellungen", "Settings"] navList = .ok none ∨
      ∃ settings, findMatchName ["Einstellungen", "Settings"] navList = .ok (some settings) ∧
        (findMatchName ["Betriebsart"] (itemsOrEmpty (pyGet settings "item")) = .ok none ∨
         ∃ operate,
           findMatchName ["Betriebsart"] (itemsOrEmpty (pyGet settings "item")) =
             .ok (some operate) ∧ hasKey operate "@id" = false)) :
    fetch_controls dev pin = (.ok [], ["LOGIN;" ++ pin]) := by
  rcases hs with hnone | ⟨settings, hset, hop⟩
  · simp [fetch_controls, h1, h2, hnone]
  · rcases hop with hopn | ⟨operate, hops, hid⟩
    · simp [fetch_controls, h1, h2, hset, hopn]
    · simp [fetch_controls, h1, h2, hset, hops, hid]

/-- Witness for C9 at a device whose navigation only has an Information
branch. -/
theorem fetch_controls_empty_without_betriebsart_witness :
    fetch_controls devNoSettings "999999" = (.ok [], ["LOGIN;999999"]) :=
  fetch_controls_empty_without_betriebsart devNoSettings "999999"
    (.vdict [("name", .vstr "Informationen"), ("@id", .vstr "0x1")])
    [.vdict [("name", .vstr "Informationen"), ("@id", .vstr "0x1")]]
    rfl rfl (Or.inl rfl)

/-! ## Dict lemmas (Python `dict` assignment and `update`) -/

theorem dlookup_eq_none {α : Type} (d : List (String × α)) (k : String)
    (h : k ∉ d.map Prod.fst) : dlookup d k = none := by
  induction d with
  | nil => rfl
  | cons e rest ih =>
      obtain ⟨k1, v1⟩ := e
      rw [List.map_cons, List.mem_cons] at h
      push_neg at h
      show (if k1 = k then some v1 else dlookup rest k) = none
      rw [if_neg (fun he => h.1 he.symm)]
      exact ih h.2

theorem dlookup_dictInsert {α : Type} (d : List (String × α)) (k k2 : String) (v : α) :
    dlookup (dictInsert d k v) k2 = if k = k2 then some v else dlookup d k2 := by
  induction d with
  | nil =>
      show dlookup [(k, v)] k2 = if k = k2 then some v else none
      show (if k = k2 then some v else dlookup [] k2) = if k = k2 then some v else none
      rfl
  | cons e rest ih =>
      obtain ⟨k3, v3⟩ := e
      by_cases h3 : k3 = k
      · subst h3
        rw [show dictInsert ((k3, v3) :: rest) k3 v = (k3, v) :: rest from by
          show (if k3 = k3 then (k3, v) :: rest else _) = _
          rw [if_pos rfl]]
        show (if k3 = k2 then some v else dlookup rest k2) =
          if k3 = k2 then some v else (if k3 = k2 then some v3 else dlookup rest k2)
        by_cases h2 : k3 = k2 <;> simp [h2]
      · rw [show dictInsert ((k3, v3) :: rest) k v = (k3, v3) :: dictInsert rest k v from by
          show (if k3 = k then _ else (k3, v3) :: dictInsert rest k v) = _
          rw [if_neg h3]]
        show (if k3 = k2 then some v3 else dlookup (dictInsert rest k v) k2) =
          if k = k2 then some v else (if k3 = k2 then some v3 else dlookup rest k2)
        by_cases h2 : k3 = k2
        · subst h2
          rw [if_pos rfl, if_pos rfl, if_neg (fun hk => h3 hk.symm)]
        · rw [if_neg h2, if_neg h2, ih]

theorem mem_keys_dictInsert {α : Type} (d : List (String × α)) (k a : String) (v : α)
    (h : a ∈ (dictInsert d k v).map Prod.fst) : a = k ∨ a ∈ d.map Prod.fst := by
  induction d with
  | nil =>
      rw [show dictInsert ([] : List (String × α)) k v = [(k, v)] from rfl] at h
      rw [List.map_cons, List.mem_cons] at h
      rcases h with h | h
      · exact Or.inl h
      · cases h
  | cons e rest ih =>
      obtain ⟨k3, v3⟩ := e
      by_cases h3 : k3 = k
      · subst h3
        rw [show dictInsert ((k3, v3) :: rest) k3 v = (k3, v) :: rest from by
          show (if k3 = k3 then (k3, v) :: rest else _) = _
          rw [if_pos rfl]] at h
        rw [List.map_cons, List.mem_cons] at h
        rcases h with h | h
        · exact Or.inl h
        · exact Or.inr (by rw [List.map_cons, List.mem_cons]; exact Or.inr h)
      · rw [show dictInsert ((k3, v3) :: rest) k v = (k3, v3) :: dictInsert rest k v from by
          show (if k3 = k then _ else (k3, v3) :: dictInsert rest k v) = _
          rw [if_neg h3]] at h
        rw [List.map_cons, List.mem_cons] at h
        rcases h with h | h
        · exact Or.inr (by rw [List.map_cons, List.mem_cons]; exact Or.inl h)
        · rcases ih h with h | h
          · exact Or.inl h
          · exact Or.inr (by rw [List.map_cons, List.mem_cons]; exact Or.inr h)

theorem dictInsert_keys_nodup {α : Type} (d : List (String × α)) (k : String) (v : α)
    (h : (d.map Prod.fst).Nodup) : ((dictInsert d k v).map Prod.fst).Nodup := by
  induction d with
  | nil => simp [dictInsert]
  | cons e rest ih =>
      obtain ⟨k3, v3⟩ := e
      rw [List.map_cons, List.nodup_cons] at h
      by_cases h3 : k3 = k
      · subst h3
        rw [show dictInsert ((k3, v3) :: rest) k3 v = (k3, v) :: rest from by
          show (if k3 = k3 then (k3, v) :: rest else _) = _
          rw [if_pos rfl]]
        rw [List.map_cons, List.nodup_cons]
        exact h
      · rw [show dictInsert ((k3, v3) :: rest) k v = (k3, v3) :: dictInsert rest k v from by
          show (if k3 = k then _ else (k3, v3) :: dictInsert rest k v) = _
          rw [if_neg h3]]
        rw [List.map_cons, List.nodup_cons]
        refine ⟨fun hmem => ?_, ih h.2⟩
        rcases mem_keys_dictInsert rest k k3 v hmem with hh | hh
        · exact h3 hh
        · exact h.1 hh

theorem dlookup_dictUpdate {α : Type} (d2 : List (String × α)) (d1 : List (String × α))
    (k : String) (h : (d2.map Prod.fst).Nodup) :
    dlookup (dictUpdate d1 d2) k =
      ((dlookup d2 k).orElse fun _ => dlookup d1 k) := by
  induction d2 generalizing d1 with
  | nil => simp [dictUpdate, dlookup]
  | cons e r2 ih =>
      obtain ⟨k2, v2⟩ := e
      rw [List.map_cons, List.nodup_cons] at h
      have hstep : dictUpdate d1 ((k2, v2) :: r2) = dictUpdate (dictInsert d1 k2 v2) r2 := rfl
      rw [hstep, ih _ h.2]
      show ((dlookup r2 k).orElse fun _ => dlookup (dictInsert d1 k2 v2) k) =
        (if k2 = k then some v2 else dlookup r2 k).orElse fun _ => dlookup d1 k
      by_cases hk : k2 = k
      · subst hk
        have hnone : dlookup r2 k2 = none := dlookup_eq_none r2 k2 h.1
        rw [hnone, if_pos rfl, dlookup_dictInsert, if_pos rfl]
        try rfl
      · rw [if_neg hk, dlookup_dictInsert, if_neg hk]

/-! ## The `walk` of `fetch_setpoints` only updates its dict -/

mutual

theorem walk_keys_nodup (x pid : XVal) (found : List (String × SPEntry))
    (h : (found.map Prod.fst).Nodup) : ((walk x pid found).map Prod.fst).Nodup := by
  cases x with
  | vdict d =>
      simp only [walk]
      apply walkEntries_keys_nodup
      split
      · split
        · exact dictInsert_keys_nodup _ _ _ h
        · exact h
      · exact h
  | vlist l => exact walkItems_keys_nodup l pid found h
  | vstr s => simpa [walk] using h
  | vnone => simpa [walk] using h

theorem walkEntries_keys_nodup (entries : List (String × XVal)) (cid : XVal)
    (found : List (String × SPEntry)) (h : (found.map Prod.fst).Nodup) :
    ((walkEntries entries cid found).map Prod.fst).Nodup := by
  cases entries with
  | nil => simpa [walkEntries] using h
  | cons e rest =>
      simp only [walkEntries]
      exact walkEntries_keys_nodup rest cid _ (walk_keys_nodup e.2 cid found h)

theorem walkItems_keys_nodup (items : List XVal) (pid : XVal)
    (found : List (String × SPEntry)) (h : (found.map Prod.fst).Nodup) :
    ((walkItems items pid found).map Prod.fst).Nodup := by
  cases items with
  | nil => simpa [walkItems] using h
  | cons x rest =>
      simp only [walkItems]
      exact walkItems_keys_nodup rest pid _ (walk_keys_nodup x pid found h)

end

/-! ## Setpoint discovery (`fetch_setpoints`) -/

/-- Device whose Settings page contains a control labelled `Foo` — not one
of the four known setpoint labels. -/
def devFoo : Device :=
  { greeting := [("Navigation",
      .vdict [("item", .vdict [("name", .vstr "Einstellungen"), ("@id", .vstr "0x2")])])],
    pages := fun k =>
      if k = "0x2" then
        [("Content", .vdict [("item",
          .vdict [("name", .vstr "Foo"), ("@id", .vstr "0x7"), ("value", .vstr "42")])])]
      else [] }

/-- Device exposing `Warmwasser-Soll` under both the Settings branch (page
`0x2`, value 50°C) and the Information branch (page `0x1`, value 51°C). -/
def devBoth : Device :=
  { greeting := [("Navigation", .vdict [("item", .vlist
      [.vdict [("name", .vstr "Einstellungen"), ("@id", .vstr "0x2")],
       .vdict [("name", .vstr "Informationen"), ("@id", .vstr "0x1")]])])],
    pages := fun k =>
      if k = "0x2" then
        [("Content", .vdict [("item", .vdict
          [("name", .vstr "Warmwasser-Soll"), ("@id", .vstr "0x10"),
           ("value", .vstr "50°C")])])]
      else if k = "0x1" then
        [("Content", .vdict [("item", .vdict
          [("name", .vstr "Warmwasser-Soll"), ("@id", .vstr "0x11"),
           ("value", .vstr "51°C")])])]
      else [] }

/-- C5 counterexample: `fetch_setpoints` returns a mapping whose key `Foo`
is not in the fixed target set — the `targets` set declared at
reading_data.py lines 206–211 is never applied as a filter, so the claim
that every key of the returned mapping belongs to that set is false. -/
theorem fetch_setpoints_returns_key_outside_targets :
    fetch_setpoints devFoo "9" =
      .ok [("Foo", { id := .vstr "0x7", name := "Foo", value := .vstr "42",
                     raw := .vnone, options := .vnone, page_id := .vnone })] ∧
    targets.contains "Foo" = false := ⟨rfl, rfl⟩

/-- C5 (amended): `fetch_setpoints` recursively collects, across the
Settings and the Information branches, every node bearing a truthy name, an
`@id` key and a `value` or `option` key — unrestricted to the declared
target-label set — and merges the two searches so that, for every label,
the entry discovered under Information takes precedence over the one
discovered under Settings. -/
theorem fetch_setpoints_information_precedence (dev : Device) (pin : String)
    (navItems : XVal) (navList : List XVal) (s i : Frame) (sid iid : XVal)
    (h1 : navItemsOf dev.greeting = .ok navItems)
    (h2 : iterWrap navItems = .ok navList)
    (h3 : findByRawName ["Einstellungen", "Settings"] navList = .ok (some s))
    (h4 : lookupKey s "@id" = some sid)
    (h5 : findByRawName ["Informationen", "Information"] navList = .ok (some i))
    (h6 : lookupKey i "@id" = some iid) :
    ∃ m, fetch_setpoints dev pin = .ok m ∧
      ∀ k, dlookup m k =
        ((dlookup (walk (.vdict (dev.pages (pyStr iid))) .vnone []) k).orElse
          fun _ => dlookup (walk (.vdict (dev.pages (pyStr sid))) .vnone []) k) := by
  refine ⟨dictUpdate (dictUpdate [] (walk (.vdict (dev.pages (pyStr sid))) .vnone []))
    (walk (.vdict (dev.pages (pyStr iid))) .vnone []), ?_, fun k => ?_⟩
  · simp [fetch_setpoints, h1, h2, h3, h4, h5, h6, bind, Except.bind, pure, Except.pure]
  · rw [dlookup_dictUpdate _ _ _ (walk_keys_nodup _ _ [] (by simp)),
      dlookup_dictUpdate _ _ _ (walk_keys_nodup _ _ [] (by simp))]
    cases dlookup (walk (.vdict (dev.pages (pyStr iid))) .vnone []) k <;>
      cases dlookup (walk (.vdict (dev.pages (pyStr sid))) .vnone []) k <;> rfl

/-- Witness for the amended C5 theorem at a device that surfaces the same
setpoint label under both branches. -/
theorem fetch_setpoints_information_precedence_witness :
    ∃ m, fetch_setpoints devBoth "999999" = .ok m ∧
      ∀ k, dlookup m k =
        ((dlookup (walk (.vdict (devBoth.pages "0x1")) .vnone []) k).orElse
          fun _ => dlookup (walk (.vdict (devBoth.pages "0x2")) .vnone []) k) :=
  fetch_setpoints_information_precedence devBoth "999999"
    (.vlist [.vdict [("name", .vstr "Einstellungen"), ("@id", .vstr "0x2")],
             .vdict [("name", .vstr "Informationen"), ("@id", .vstr "0x1")]])
    [.vdict [("name", .vstr "Einstellungen"), ("@id", .vstr "0x2")],
     .vdict [("name", .vstr "Informationen"), ("@id", .vstr "0x1")]]
    [("name", .vstr "Einstellungen"), ("@id", .vstr "0x2")]
    [("name", .vstr "Informationen"), ("@id", .vstr "0x1")]
    (.vstr "0x2") (.vstr "0x1") rfl rfl rfl rfl rfl rfl

def groupItems (gd : Frame) : List XVal :=
  match pyGet gd "item" with
  | .vdict d => [.vdict d]
  | .vlist l => l
  | _ => []

def leafPairsOf (gname : String) : List XVal → List (String × XVal)
  | [] => []
  | .vdict d :: rest =>
      (gname ++ "_" ++ pyStrip (normalizeLabel (pyGet d "name")), pyGet d "value")
        :: leafPairsOf gname rest
  | _ :: rest => leafPairsOf gname rest

def specFlatten : List XVal → List (String × XVal)
  | [] => []
  | .vdict gd :: rest =>
      leafPairsOf (pyStrip (normalizeLabel (pyGet gd "name"))) (groupItems gd) ++ specFlatten rest
  | _ :: rest => specFlatten rest

theorem dictInsert_append {α : Type} (d : List (String × α)) (k : String) (v : α)
    (h : k ∉ d.map Prod.fst) : dictInsert d k v = d ++ [(k, v)] := by
  induction d with
  | nil => rfl
  | cons e rest ih =>
      obtain ⟨k1, v1⟩ := e
      rw [List.map_cons, List.mem_cons] at h
      push_neg at h
      show (if k1 = k then _ else (k1, v1) :: dictInsert rest k v) = _
      rw [if_neg (fun he => h.1 he.symm), ih h.2]
      rfl

theorem fetchLeaves_append (gname : String) (hg : gname ≠ "") :
    ∀ (leaves : List XVal) (res : List (String × XVal)),
    ((leafPairsOf gname leaves).map Prod.fst).Nodup →
    (∀ k ∈ (leafPairsOf gname leaves).map Prod.fst, k ∉ res.map Prod.fst) →
    fetchLeaves gname leaves res = res ++ leafPairsOf gname leaves
  | [], res, _, _ => by simp [fetchLeaves, leafPairsOf]
  | .vdict d :: rest, res, hnodup, hfresh => by
      rw [leafPairsOf] at hnodup hfresh ⊢
      rw [List.map_cons, List.nodup_cons] at hnodup
      have hk0 : (gname ++ "_" ++ pyStrip (normalizeLabel (pyGet d "name"))) ∉
          res.map Prod.fst := hfresh _ (List.mem_cons_self _ _)
      rw [fetchLeaves, if_pos hg, dictInsert_append _ _ _ hk0]
      rw [fetchLeaves_append gname hg rest _ hnodup.2 ?fresh]
      · rw [List.append_assoc]
        rfl
      case fresh =>
        intro k hk
        rw [List.map_append, List.mem_append]
        push_neg
        refine ⟨hfresh k (List.mem_cons_of_mem _ hk), ?_⟩
        intro hmem
        rw [List.map_cons] at hmem
        rcases List.mem_cons.mp hmem with he | he
        · exact hnodup.1 (he ▸ hk)
        · exact absurd he (List.not_mem_nil _)
  | .vstr s :: rest, res, hnodup, hfresh => by
      simp only [leafPairsOf] at hnodup hfresh
      simpa [fetchLeaves, leafPairsOf] using
        fetchLeaves_append gname hg rest res hnodup hfresh
  | .vlist l :: rest, res, hnodup, hfresh => by
      simp only [leafPairsOf] at hnodup hfresh
      simpa [fetchLeaves, leafPairsOf] using
        fetchLeaves_append gname hg rest res hnodup hfresh
  | .vnone :: rest, res, hnodup, hfresh => by
      simp only [leafPairsOf] at hnodup hfresh
      simpa [fetchLeaves, leafPairsOf] using
        fetchLeaves_append gname hg rest res hnodup hfresh

theorem fetchLeaves_nil_items (gname : String) (res : List (String × XVal)) :
    fetchLeaves gname [] res = res := rfl

theorem fetchGroups_append :
    ∀ (groups : List XVal) (res : List (String × XVal)),
    (∀ g ∈ groups, ∃ gd, g = XVal.vdict gd ∧ pyStrip (normalizeLabel (pyGet gd "name")) ≠ "") →
    ((specFlatten groups).map Prod.fst).Nodup →
    (∀ k ∈ (specFlatten groups).map Prod.fst, k ∉ res.map Prod.fst) →
    fetchGroups groups res = .ok (res ++ specFlatten groups)
  | [], res, _, _, _ => by simp [fetchGroups, specFlatten]
  | g :: rest, res, hg, hnodup, hfresh => by
      obtain ⟨gd, rfl, hname⟩ := hg g (List.mem_cons_self _ _)
      rw [specFlatten] at hnodup hfresh ⊢
      rw [List.map_append] at hnodup hfresh
      rw [List.nodup_append] at hnodup
      have hfreshL : ∀ k ∈ (leafPairsOf (pyStrip (normalizeLabel (pyGet gd "name")))
          (groupItems gd)).map Prod.fst, k ∉ res.map Prod.fst :=
        fun k hk => hfresh k (List.mem_append.mpr (Or.inl hk))
      have hleaves := fetchLeaves_append _ hname (groupItems gd) res hnodup.1 hfreshL
      have hrest : fetchGroups rest (res ++ leafPairsOf (pyStrip (normalizeLabel
          (pyGet gd "name"))) (groupItems gd)) =
          .ok ((res ++ leafPairsOf (pyStrip (normalizeLabel (pyGet gd "name")))
            (groupItems gd)) ++ specFlatten rest) := by
        apply fetchGroups_append rest _ (fun g hgm => hg g (List.mem_cons_of_mem _ hgm))
          hnodup.2.1
        intro k hk
        rw [List.map_append, List.mem_append]
        push_neg
        exact ⟨hfresh k (List.mem_append.mpr (Or.inr hk)),
          fun hmem => hnodup.2.2 hmem hk⟩
      rw [fetchGroups]
      cases hitem : pyGet gd "item" with
      | vdict d =>
          simp only [groupItems, hitem] at hleaves hrest
          simp only [hleaves, hrest, List.append_assoc, groupItems, hitem]
      | vlist l =>
          simp only [groupItems, hitem] at hleaves hrest
          simp only [hleaves, hrest, List.append_assoc, groupItems, hitem]
      | vstr s =>
          simp only [groupItems, hitem, leafPairsOf, List.append_nil] at hrest
          simp only [hrest, List.append_assoc, groupItems, hitem, leafPairsOf,
            List.nil_append, List.append_nil]
      | vnone =>
          simp only [groupItems, hitem, leafPairsOf, List.append_nil] at hrest
          simp only [hrest, List.append_assoc, groupItems, hitem, leafPairsOf,
            List.nil_append, List.append_nil]

theorem append_underscore_ne_time (a b : String) : a ++ "_" ++ b ≠ "Time" := by
  intro h
  have hd : (a ++ "_" ++ b).data = "Time".data := congrArg String.data h
  rw [String.data_append, String.data_append] at hd
  have hmem : '_' ∈ a.data ++ "_".data ++ b.data := by
    rw [List.append_assoc]
    exact List.mem_append.mpr (Or.inr (List.mem_append.mpr (Or.inl (by decide))))
  rw [List.append_assoc] at hd
  rw [List.append_assoc] at hmem
  rw [hd] at hmem
  revert hmem
  decide

theorem leafPairsOf_key_shape (gname : String) :
    ∀ (leaves : List XVal) (k : String),
      k ∈ (leafPairsOf gname leaves).map Prod.fst → ∃ l, k = gname ++ "_" ++ l
  | [], k, h => by simp [leafPairsOf] at h
  | .vdict d :: rest, k, h => by
      rw [leafPairsOf, List.map_cons, List.mem_cons] at h
      rcases h with h | h
      · exact ⟨_, h⟩
      · exact leafPairsOf_key_shape gname rest k h
  | .vstr s :: rest, k, h => by
      simp only [leafPairsOf] at h
      exact leafPairsOf_key_shape gname rest k h
  | .vlist l :: rest, k, h => by
      simp only [leafPairsOf] at h
      exact leafPairsOf_key_shape gname rest k h
  | .vnone :: rest, k, h => by
      simp only [leafPairsOf] at h
      exact leafPairsOf_key_shape gname rest k h

theorem specFlatten_key_shape :
    ∀ (groups : List XVal) (k : String), k ∈ (specFlatten groups).map Prod.fst →
      ∃ g l, k = g ++ "_" ++ l
  | [], k, h => by simp [specFlatten] at h
  | .vdict gd :: rest, k, h => by
      rw [specFlatten, List.map_append, List.mem_append] at h
      rcases h with h | h
      · obtain ⟨l, hl⟩ := leafPairsOf_key_shape _ _ k h
        exact ⟨_, l, hl⟩
      · exact specFlatten_key_shape rest k h
  | .vstr s :: rest, k, h => by
      simp only [specFlatten] at h
      exact specFlatten_key_shape rest k h
  | .vlist l :: rest, k, h => by
      simp only [specFlatten] at h
      exact specFlatten_key_shape rest k h
  | .vnone :: rest, k, h => by
      simp only [specFlatten] at h
      exact specFlatten_key_shape rest k h

/-- C4: for every Content frame answered to the Information-branch GET in
which each group is a dict with a non-empty stripped normalized label and
the generated qualified keys are pairwise distinct, `fetch_data` returns
exactly the flat mapping `{group}_{leaf} -> value` over every (dict) leaf
of every group, with the synthetic `Time` key carrying the capture
timestamp appended at the very end. -/
theorem fetch_data_flattens (dev : Device) (now : String) (navItems : XVal)
    (navList : List XVal) (info : Frame) (pid ci : XVal) (groups : List XVal)
    (h1 : navItemsOf dev.greeting = .ok navItems)
    (h2 : iterWrap navItems = .ok navList)
    (h3 : findByRawName ["Informationen", "Information"] navList = .ok (some info))
    (h4 : lookupKey info "@id" = some pid)
    (h5 : getContentItems (dev.pages (pyStr pid)) "Content" "item" = .ok ci)
    (h6 : iterWrap ci = .ok groups)
    (hg : ∀ g ∈ groups, ∃ gd, g = XVal.vdict gd ∧ pyStrip (normalizeLabel (pyGet gd "name")) ≠ "")
    (hnodup : ((specFlatten groups).map Prod.fst).Nodup) :
    fetch_data dev now = .ok (specFlatten groups ++ [("Time", XVal.vstr now)]) := by
  have hgr : fetchGroups groups [] = .ok (specFlatten groups) := by
    simpa using fetchGroups_append groups [] hg hnodup (by simp)
  have htime : dictInsert (specFlatten groups) "Time" (XVal.vstr now) =
      specFlatten groups ++ [("Time", XVal.vstr now)] := by
    apply dictInsert_append
    intro hmem
    obtain ⟨g, l, hgl⟩ := specFlatten_key_shape groups "Time" hmem
    exact append_underscore_ne_time g l hgl.symm
  simp [fetch_data, h1, h2, h3, h4, h5, h6, hgr, htime, bind, Except.bind, pure, Except.pure]

def devTemp : Device :=
  { greeting := [("Navigation",
      .vdict [("item", .vdict [("name", .vstr "Informationen"), ("@id", .vstr "0x3")])])],
    pages := fun k =>
      if k = "0x3" then
        [("Content", .vdict [("item", .vdict
          [("name", .vstr "Temperaturen"),
           ("item", .vdict [("name", .vstr "Aussentemperatur"),
                            ("value", .vstr "3.2°C")])])])]
      else [] }

/-- Witness for C4: the spec's synthetic Temperaturen/Aussentemperatur
frame. -/
theorem fetch_data_flattens_witness :
    fetch_data devTemp "2024-01-01 00:00:00" =
      .ok [("Temperaturen_Aussentemperatur", .vstr "3.2°C"),
           ("Time", .vstr "2024-01-01 00:00:00")] :=
  fetch_data_flattens devTemp "2024-01-01 00:00:00"
    (.vdict [("name", .vstr "Informationen"), ("@id", .vstr "0x3")])
    [.vdict [("name", .vstr "Informationen"), ("@id", .vstr "0x3")]]
    [("name", .vstr "Informationen"), ("@id", .vstr "0x3")]
    (.vstr "0x3")
    (.vdict [("name", .vstr "Temperaturen"),
             ("item", .vdict [("name", .vstr "Aussentemperatur"), ("value", .vstr "3.2°C")])])
    [.vdict [("name", .vstr "Temperaturen"),
             ("item", .vdict [("name", .vstr "Aussentemperatur"), ("value", .vstr "3.2°C")])]]
    rfl rfl rfl rfl rfl rfl
    (by
      intro g hgm
      simp at hgm
      subst hgm
      exact ⟨_, rfl, by decide⟩)
    (by decide)

theorem fetchLeaves_keys (gname : String) :
    ∀ (leaves : List XVal) (res : List (String × XVal)) (k : String),
      k ∈ (fetchLeaves gname leaves res).map Prod.fst →
      k ∈ res.map Prod.fst ∨ (gname ≠ "" ∧ ∃ l, k = gname ++ "_" ++ l)
  | [], res, k, h => Or.inl h
  | .vdict d :: rest, res, k, h => by
      by_cases hg : gname = ""
      · rw [fetchLeaves, if_neg (by simpa using hg)] at h
        exact fetchLeaves_keys gname rest res k h
      · rw [fetchLeaves, if_pos hg] at h
        rcases fetchLeaves_keys gname rest _ k h with hmem | hshape
        · rcases mem_keys_dictInsert res _ k _ hmem with he | he
          · exact Or.inr ⟨hg, pyStrip (normalizeLabel (pyGet d "name")), he⟩
          · exact Or.inl he
        · exact Or.inr hshape
  | .vstr s :: rest, res, k, h => by
      simp only [fetchLeaves] at h
      exact fetchLeaves_keys gname rest res k h
  | .vlist l :: rest, res, k, h => by
      simp only [fetchLeaves] at h
      exact fetchLeaves_keys gname rest res k h
  | .vnone :: rest, res, k, h => by
      simp only [fetchLeaves] at h
      exact fetchLeaves_keys gname rest res k h

theorem fetchGroups_keys :
    ∀ (groups : List XVal) (res out : List (String × XVal)) (k : String),
      fetchGroups groups res = .ok out → k ∈ out.map Prod.fst →
      k ∈ res.map Prod.fst ∨ ∃ g l, g ≠ "" ∧ k = g ++ "_" ++ l
  | [], res, out, k, hok, h => by
      rw [fetchGroups] at hok
      cases hok
      exact Or.inl h
  | .vdict gd :: rest, res, out, k, hok, h => by
      rw [fetchGroups] at hok
      cases hitem : pyGet gd "item" with
      | vdict d =>
          rw [hitem] at hok
          rcases fetchGroups_keys rest _ out k hok h with hmem | hshape
          · rcases fetchLeaves_keys _ _ _ k hmem with hm | hs
            · exact Or.inl hm
            · exact Or.inr ⟨_, hs.2.choose, hs.1, hs.2.choose_spec⟩
          · exact Or.inr hshape
      | vlist l =>
          rw [hitem] at hok
          rcases fetchGroups_keys rest _ out k hok h with hmem | hshape
          · rcases fetchLeaves_keys _ _ _ k hmem with hm | hs
            · exact Or.inl hm
            · exact Or.inr ⟨_, hs.2.choose, hs.1, hs.2.choose_spec⟩
          · exact Or.inr hshape
      | vstr s =>
          rw [hitem] at hok
          exact fetchGroups_keys rest res out k hok h
      | vnone =>
          rw [hitem] at hok
          exact fetchGroups_keys rest res out k hok h
  | .vstr s :: rest, res, out, k, hok, h => by
      simp only [fetchGroups] at hok
      cases hok
  | .vlist l :: rest, res, out, k, hok, h => by
      simp only [fetchGroups] at hok
      cases hok
  | .vnone :: rest, res, out, k, hok, h => by
      simp only [fetchGroups] at hok
      cases hok

def keepGroup : XVal → Bool
  | .vdict gd => !(pyStrip (normalizeLabel (pyGet gd "name")) == "")
  | _ => true

def withPage (dev : Device) (pid : String) (page : Frame) : Device :=
  { dev with pages := fun k => if k = pid then page else dev.pages k }

def mkContent (groups : List XVal) : Frame :=
  [("Content", XVal.vdict [("item", XVal.vlist groups)])]

theorem fetchLeaves_empty_gname :
    ∀ (l : List XVal) (res : List (String × XVal)), fetchLeaves "" l res = res
  | [], _ => rfl
  | .vdict d :: rest, res => by
      rw [fetchLeaves, if_neg (by simp)]
      exact fetchLeaves_empty_gname rest res
  | .vstr s :: rest, res => by
      simp only [fetchLeaves]
      exact fetchLeaves_empty_gname rest res
  | .vlist l :: rest, res => by
      simp only [fetchLeaves]
      exact fetchLeaves_empty_gname rest res
  | .vnone :: rest, res => by
      simp only [fetchLeaves]
      exact fetchLeaves_empty_gname rest res

theorem fetchGroups_filter :
    ∀ (groups : List XVal) (res : List (String × XVal)),
      fetchGroups (groups.filter keepGroup) res = fetchGroups groups res
  | [], res => rfl
  | .vdict gd :: rest, res => by
      by_cases hk : keepGroup (.vdict gd) = true
      · rw [List.filter_cons_of_pos hk]
        rw [fetchGroups, fetchGroups]
        cases hitem : pyGet gd "item" with
        | vdict d => exact fetchGroups_filter rest _
        | vlist l => exact fetchGroups_filter rest _
        | vstr s => exact fetchGroups_filter rest _
        | vnone => exact fetchGroups_filter rest _
      · have hempty : pyStrip (normalizeLabel (pyGet gd "name")) = "" := by
          simp [keepGroup] at hk
          exact hk
        rw [List.filter_cons_of_neg (by simpa using hk)]
        rw [fetchGroups_filter rest res]
        rw [fetchGroups]
        cases hitem : pyGet gd "item" with
        | vdict d => simp only [hempty, fetchLeaves_empty_gname]
        | vlist l => simp only [hempty, fetchLeaves_empty_gname]
        | vstr s => rfl
        | vnone => rfl
  | .vstr s :: rest, res => by
      rw [List.filter_cons_of_pos (by simp [keepGroup])]
      rfl
  | .vlist l :: rest, res => by
      rw [List.filter_cons_of_pos (by simp [keepGroup])]
      rfl
  | .vnone :: rest, res => by
      rw [List.filter_cons_of_pos (by simp [keepGroup])]
      rfl

theorem fetch_data_keys_aux (dev : Device) (now : String) (res : List (String × XVal))
    (hres : fetch_data dev now = .ok res) :
    ∀ k ∈ res.map Prod.fst, k = "Time" ∨ ∃ g l, g ≠ "" ∧ k = g ++ "_" ++ l := by
  cases h1 : navItemsOf dev.greeting with
  | error e => simp [fetch_data, h1, bind, Except.bind] at hres
  | ok navItems =>
  cases h2 : iterWrap navItems with
  | error e => simp [fetch_data, h1, h2, bind, Except.bind] at hres
  | ok navList =>
  cases h3 : findByRawName ["Informationen", "Information"] navList with
  | error e => simp [fetch_data, h1, h2, h3, bind, Except.bind] at hres
  | ok infoOpt =>
  cases infoOpt with
  | none =>
      simp [fetch_data, h1, h2, h3, bind, Except.bind, pure, Except.pure] at hres
      subst hres
      intro k hk
      simp at hk
  | some info =>
  cases h4 : lookupKey info "@id" with
  | none => simp [fetch_data, h1, h2, h3, h4, bind, Except.bind] at hres
  | some pid =>
  cases h5 : getContentItems (dev.pages (pyStr pid)) "Content" "item" with
  | error e => simp [fetch_data, h1, h2, h3, h4, h5, bind, Except.bind] at hres
  | ok ci =>
  cases h6 : iterWrap ci with
  | error e => simp [fetch_data, h1, h2, h3, h4, h5, h6, bind, Except.bind] at hres
  | ok groups =>
  cases h7 : fetchGroups groups [] with
  | error e => simp [fetch_data, h1, h2, h3, h4, h5, h6, h7, bind, Except.bind] at hres
  | ok out =>
      have hr : dictInsert out "Time" (XVal.vstr now) = res := by
        simpa [fetch_data, h1, h2, h3, h4, h5, h6, h7, bind, Except.bind, pure,
          Except.pure] using hres
      intro k hk
      rw [← hr] at hk
      rcases mem_keys_dictInsert out "Time" k _ hk with he | he
      · exact Or.inl he
      · rcases fetchGroups_keys groups [] out k h7 he with hm | hs
        · simp at hm
        · exact Or.inr hs

/-- C10: every key of a successful `fetch_data` result other than the
synthetic `Time` key has the form `<group>_<leaf>` with a non-empty group
part, and the result is unchanged when all groups whose stripped
normalized label is empty are removed from the Content frame — their
leaves are omitted entirely. -/
theorem fetch_data_qualified_keys (dev : Device) (now : String) (navItems : XVal)
    (navList : List XVal) (info : Frame) (pid ci : XVal) (groups : List XVal)
    (res : List (String × XVal))
    (h1 : navItemsOf dev.greeting = .ok navItems)
    (h2 : iterWrap navItems = .ok navList)
    (h3 : findByRawName ["Informationen", "Information"] navList = .ok (some info))
    (h4 : lookupKey info "@id" = some pid)
    (h5 : getContentItems (dev.pages (pyStr pid)) "Content" "item" = .ok ci)
    (h6 : iterWrap ci = .ok groups)
    (hres : fetch_data dev now = .ok res) :
    (∀ k ∈ res.map Prod.fst, k = "Time" ∨ ∃ g l, g ≠ "" ∧ k = g ++ "_" ++ l) ∧
    fetch_data dev now =
      fetch_data (withPage dev (pyStr pid) (mkContent (groups.filter keepGroup))) now := by
  refine ⟨fetch_data_keys_aux dev now res hres, ?_⟩
  have h5' : getContentItems (mkContent (groups.filter keepGroup)) "Content" "item" =
      .ok (.vlist (groups.filter keepGroup)) := rfl
  have h6' : iterWrap (.vlist (groups.filter keepGroup)) = .ok (groups.filter keepGroup) := rfl
  simp [fetch_data, h1, h2, h3, h4, h5, h6, h5', h6', withPage, bind, Except.bind, pure,
    Except.pure, fetchGroups_filter]

def devMixed : Device :=
  { greeting := [("Navigation",
      .vdict [("item", .vdict [("name", .vstr "Informationen"), ("@id", .vstr "0x3")])])],
    pages := fun k =>
      if k = "0x3" then
        [("Content", .vdict [("item", .vlist
          [.vdict [("name", .vstr "Temperaturen"),
                   ("item", .vdict [("name", .vstr "Vorlauf"), ("value", .vstr "30°C")])],
           .vdict [("item", .vdict [("name", .vstr "Ghost"), ("value", .vstr "9")])]])])]
      else [] }

/-- Witness for C10 at a frame with one labelled and one unlabelled
group. -/
theorem fetch_data_qualified_keys_witness :
    (∀ k ∈ ([("Temperaturen_Vorlauf", XVal.vstr "30°C"),
             ("Time", XVal.vstr "t0")].map Prod.fst),
       k = "Time" ∨ ∃ g l, g ≠ "" ∧ k = g ++ "_" ++ l) ∧
    fetch_data devMixed "t0" =
      fetch_data (withPage devMixed "0x3" (mkContent
        (([.vdict [("name", .vstr "Temperaturen"),
                   ("item", .vdict [("name", .vstr "Vorlauf"), ("value", .vstr "30°C")])],
           .vdict [("item", .vdict [("name", .vstr "Ghost"),
                                    ("value", .vstr "9")])]] : List XVal).filter keepGroup))) "t0" :=
  fetch_data_qualified_keys devMixed "t0"
    (.vdict [("name", .vstr "Informationen"), ("@id", .vstr "0x3")])
    [.vdict [("name", .vstr "Informationen"), ("@id", .vstr "0x3")]]
    [("name", .vstr "Informationen"), ("@id", .vstr "0x3")]
    (.vstr "0x3")
    (.vlist [.vdict [("name", .vstr "Temperaturen"),
                     ("item", .vdict [("name", .vstr "Vorlauf"), ("value", .vstr "30°C")])],
             .vdict [("item", .vdict [("name", .vstr "Ghost"), ("value", .vstr "9")])]])
    [.vdict [("name", .vstr "Temperaturen"),
             ("item", .vdict [("name", .vstr "Vorlauf"), ("value", .vstr "30°C")])],
     .vdict [("item", .vdict [("name", .vstr "Ghost"), ("value", .vstr "9")])]]
    [("Temperaturen_Vorlauf", XVal.vstr "30°C"), ("Time", XVal.vstr "t0")]
    rfl rfl rfl rfl rfl rfl rfl

def dumpArgs (r : Nat) : DumpArgs := ⟨r, 25, 200, false, false⟩

def pageA : Frame :=
  [("Content", .vdict [("item", .vdict [("name", .vstr "va"), ("value", .vstr "1")])])]

def pageC : Frame :=
  [("Content", .vdict [("item", .vdict [("name", .vstr "vc"), ("value", .vstr "2")])])]

def devDump : DumpDevice :=
  { greeting := [("Navigation", .vdict [("item", .vlist
      [.vdict [("name", .vstr "A"), ("@id", .vstr "a")],
       .vdict [("name", .vstr "B"), ("@id", .vstr "b")],
       .vdict [("name", .vstr "C"), ("@id", .vstr "c")]])])],
    respond := fun k =>
      if k = "a" then some ("", pageA) else if k = "c" then some ("", pageC) else none }

def rptA : RptNode := ⟨"A", .vstr "a", 1, [⟨.vstr "va", some (.vstr "1"), none⟩], none, some 0⟩

def rptC : RptNode := ⟨"C", .vstr "c", 1, [⟨.vstr "vc", some (.vstr "2"), none⟩], none, some 0⟩

def dumpFinal (r : Nat) : CrState :=
  ⟨[], [.vstr "a", .vstr "c"], [(.vstr "b", r)], [rptA, rptC], [⟨"B", .vstr "b", r⟩], 1⟩

def qA : QueueNode := ⟨[.vstr "A"], .vstr "a"⟩
def qB : QueueNode := ⟨[.vstr "B"], .vstr "b"⟩
def qC : QueueNode := ⟨[.vstr "C"], .vstr "c"⟩

def stStart : CrState := ⟨[qA, qB, qC], [], [], [], [], 0⟩
def stA : CrState := ⟨[qB, qC], [.vstr "a"], [], [rptA], [], 0⟩
def stB (k : Nat) : CrState := ⟨[qB, qC], [.vstr "a"], [(.vstr "b", k)], [rptA], [], 0⟩

theorem crStepA (rm : Nat) (f : Nat) :
    crLoop devDump (dumpArgs (rm + 1)) (f + 1) stStart =
    crLoop devDump (dumpArgs (rm + 1)) f stA := rfl

theorem crStepBfail (rm k f : Nat) (hk : k < rm + 1) :
    crLoop devDump (dumpArgs (rm + 1)) (f + 1) (stB k) =
    crLoop devDump (dumpArgs (rm + 1)) f (stB (k + 1)) := by
  rw [crLoop]
  simp only [stB, dumpArgs, qB, qC]
  rw [if_neg (show ¬(rm + 1 ≤ retriesGet [(XVal.vstr "b", k)] (XVal.vstr "b")) from by
    simpa [retriesGet, xeq] using hk)]
  rfl

def stC (r : Nat) : CrState :=
  ⟨[qC], [.vstr "a"], [(.vstr "b", r)], [rptA], [⟨"B", .vstr "b", r⟩], 1⟩

theorem crStepBskip (rm f : Nat) :
    crLoop devDump (dumpArgs (rm + 1)) (f + 1) (stB (rm + 1)) =
    crLoop devDump (dumpArgs (rm + 1)) f (stC (rm + 1)) := by
  rw [crLoop]
  simp only [stB, stC, dumpArgs, qB, qC]
  rw [if_pos (show rm + 1 ≤ retriesGet [(XVal.vstr "b", rm + 1)] (XVal.vstr "b") from by
    simp [retriesGet, xeq])]
  rfl

theorem crStepC (rm f : Nat) :
    crLoop devDump (dumpArgs (rm + 1)) (f + 1) (stC (rm + 1)) =
    crLoop devDump (dumpArgs (rm + 1)) f (dumpFinal (rm + 1)) := rfl

theorem crEnd (rm f : Nat) :
    crLoop devDump (dumpArgs (rm + 1)) (f + 1) (dumpFinal (rm + 1)) =
    some (.ok (dumpFinal (rm + 1))) := rfl

theorem crB (rm : Nat) :
    ∀ (m k : Nat), k + m = rm + 1 → 1 ≤ k →
    crLoop devDump (dumpArgs (rm + 1)) (m + 3) (stB k) =
    some (.ok (dumpFinal (rm + 1)))
  | 0, k, hk, hk1 => by
      have : k = rm + 1 := by omega
      subst this
      rw [show (0 + 3 : Nat) = 2 + 1 from rfl, crStepBskip rm 2, crStepC rm 1, crEnd rm 0]
  | m + 1, k, hk, hk1 => by
      rw [show (m + 1 + 3 : Nat) = (m + 3) + 1 from by omega, crStepBfail rm k (m + 3) (by omega)]
      exact crB rm m (k + 1) (by omega) (by omega)

/-- C7: against a device that always times out on node `b` but answers
nodes `a` and `c`, the bulk walk with retry budget `r ≥ 1` requeues `b` at
the front, retries it `r` times over fresh connections, then marks exactly
`b` skipped (with `attempts = r`) without aborting, and still reports both
other reachable nodes within the max-node budget. -/
theorem collect_report_retry_budget (r : Nat) (hr : 1 ≤ r) :
    collect_report devDump (dumpArgs r) (r + 4) = some (.ok (dumpFinal r)) := by
  obtain ⟨rm, rfl⟩ : ∃ m, r = m + 1 := ⟨r - 1, by omega⟩
  have h0 : collect_report devDump (dumpArgs (rm + 1)) (rm + 1 + 4) =
      crLoop devDump (dumpArgs (rm + 1)) (rm + 5) stStart := rfl
  rw [h0, show (rm + 5 : Nat) = (rm + 4) + 1 from by omega, crStepA rm (rm + 4)]
  rw [show (rm + 4 : Nat) = (rm + 3) + 1 from by omega]
  rw [show ∀ f, crLoop devDump (dumpArgs (rm + 1)) (f + 1) stA =
      crLoop devDump (dumpArgs (rm + 1)) f (stB 1) from fun f => rfl]
  exact crB rm rm 1 (by omega) (by omega)

/-- Witness for C7 at the default retry budget of 3. -/
theorem collect_report_retry_budget_witness :
    1 ≤ 3 ∧ collect_report devDump (dumpArgs 3) (3 + 4) = some (.ok (dumpFinal 3)) :=
  ⟨by decide, collect_report_retry_budget 3 (by decide)⟩


/-- C8: label normalization is idempotent. Feeding the (string) result of
`_normalize_label` back in returns it unchanged. -/
theorem normalizeLabel_idem (x : XVal) :
    normalizeLabel (.vstr (normalizeLabel x)) = normalizeLabel x := rfl

example : normalizeLabel (.vlist [.vnone, .vdict [("#text", .vstr "a")]]) = "a" := by decide
